/-
  Verification of the turbopascal compiler/p-machine (JavaScript source)
  against its natural-language specification.

  The JavaScript source is shallowly embedded: JS numbers that hold machine
  words, addresses and sizes are modelled as Int (with explicit 32-bit
  wrapping where the source relies on JS bitwise coercions), the p-machine
  data store is a total function from Int addresses to runtime values
  (JS arrays are sparse, so out-of-range writes succeed and missing reads
  give undefined, modelled by Value.VUndef), and thrown PascalError
  exceptions are modelled by Option/Except failure.
-/
import Mathlib

set_option maxRecDepth 6000

namespace Turbo

/-! ## JS 32-bit integer coercions (used by inst.js and by number
    classification in Parser.js / the compiler). -/

/-- JS ToUint32 of an integer-valued number: value mod 2^32, in [0, 2^32). -/
def toUint32 (x : Int) : Int := x % 4294967296

/-- JS ToInt32 of an integer-valued number: value mod 2^32, in [-2^31, 2^31). -/
def toInt32 (x : Int) : Int := (x + 2147483648) % 4294967296 - 2147483648

/-- The uint32 bit pattern of a JS int32 value, as a Nat. -/
def toUint32N (x : Int) : Nat := (toUint32 x).toNat

/-- JS shift-left: both operand and result are coerced to int32; the
    shift count is taken mod 32. -/
def jsShl (x : Int) (n : Nat) : Int := toInt32 (toInt32 x * 2 ^ (n % 32))

/-- JS unsigned shift-right: operand coerced to uint32, then a floor
    division; result is a uint32. The shift count is taken mod 32. -/
def jsUshr (x : Int) (n : Nat) : Int := toUint32 x / 2 ^ (n % 32)

/-- JS bitwise and: operands coerced to int32 (acting on the 32 bit
    patterns), result read back as int32. -/
def jsAnd (x y : Int) : Int :=
  toInt32 ((toUint32N x &&& toUint32N y : Nat) : Int)

/-- JS bitwise or, same coercions as jsAnd. -/
def jsOr32 (x y : Int) : Int :=
  toInt32 ((toUint32N x ||| toUint32N y : Nat) : Int)

/-! ## inst.js: instruction word encoding.

    One word per instruction:
    (opcode << 0) | (operand1 << 8) | (operand2 << 17),
    masks 0xFF, 0x1FF, 0x7FFF. -/

def OPCODE_BITS : Nat := 8
def OPERAND1_BITS : Nat := 9
def OPERAND2_BITS : Nat := 15
def OPCODE_MASK : Int := (2 : Int) ^ OPCODE_BITS - 1
def OPERAND1_MASK : Int := (2 : Int) ^ OPERAND1_BITS - 1
def OPERAND2_MASK : Int := (2 : Int) ^ OPERAND2_BITS - 1
def OPCODE_SHIFT : Nat := 0
def OPERAND1_SHIFT : Nat := OPCODE_SHIFT + OPCODE_BITS
def OPERAND2_SHIFT : Nat := OPERAND1_SHIFT + OPERAND1_BITS

/-- inst.make: construct a machine language instruction.  The source
    throws a PascalError when an operand is negative or too large
    (the opcode itself is not checked), modelled with Except. -/
def make (opcode operand1 operand2 : Int) : Except String Int :=
  if operand1 < 0 then Except.error "negative operand1"
  else if OPERAND1_MASK < operand1 then Except.error "too large operand1"
  else if operand2 < 0 then Except.error "negative operand2"
  else if OPERAND2_MASK < operand2 then Except.error "too large operand2"
  else Except.ok (jsOr32 (jsOr32 (jsShl opcode OPCODE_SHIFT)
      (jsShl operand1 OPERAND1_SHIFT)) (jsShl operand2 OPERAND2_SHIFT))

/-- inst.getOpcode. -/
def getOpcode (i : Int) : Int := jsAnd (jsUshr i OPCODE_SHIFT) OPCODE_MASK

/-- inst.getOperand1. -/
def getOperand1 (i : Int) : Int := jsAnd (jsUshr i OPERAND1_SHIFT) OPERAND1_MASK

/-- inst.getOperand2. -/
def getOperand2 (i : Int) : Int := jsAnd (jsUshr i OPERAND2_SHIFT) OPERAND2_MASK

/-- Abbreviation used to write down concrete instruction words in test
    bytecodes: the value inst.make produces for in-range operands with a
    small operand2 (so that no int32 wrap occurs). -/
def mkWord (opcode operand1 operand2 : Int) : Int :=
  opcode + operand1 * 256 + operand2 * 131072

/-! ## Opcode and type-code constants from inst.js. -/

def CUP : Int := 0x00
def CSP : Int := 0x01
def ENT : Int := 0x02
def MST : Int := 0x03
def RTN : Int := 0x04
def EQU : Int := 0x05
def NEQ : Int := 0x06
def GRT : Int := 0x07
def GEQ : Int := 0x08
def LES : Int := 0x09
def LEQ : Int := 0x0A
def ADI : Int := 0x0B
def SBI : Int := 0x0C
def NGI : Int := 0x0D
def MPI : Int := 0x0E
def DVI : Int := 0x0F
def MOD : Int := 0x10
def INC : Int := 0x13
def DEC : Int := 0x14
def ADR : Int := 0x15
def SBR : Int := 0x16
def NGR : Int := 0x17
def MPR : Int := 0x18
def DVR : Int := 0x19
def IOR : Int := 0x1C
def AND : Int := 0x1D
def NOT : Int := 0x1F
def UJP : Int := 0x26
def XJP : Int := 0x27
def FJP : Int := 0x28
def TJP : Int := 0x29
def FLT : Int := 0x2A
def STP : Int := 0x30
def LDA : Int := 0x31
def LDC : Int := 0x32
def LDI : Int := 0x33
def LVA : Int := 0x34
def LVB : Int := 0x35
def LVC : Int := 0x36
def LVI : Int := 0x37
def LVR : Int := 0x38
def STI : Int := 0x3A
def IXA : Int := 0x3B

/-- Type codes (inst.A .. inst.X). -/
def A : Int := 0x00
def B : Int := 0x01
def C : Int := 0x02
def I : Int := 0x03
def R : Int := 0x04
def S : Int := 0x05
def P : Int := 0x07

/-- Size of the mark at the bottom of each frame: return value, static
    link, dynamic link, extreme pointer, return address. -/
def MARK_SIZE : Int := 5

/-! ## Machine.js: the p-machine.

    Runtime values are JS values stored in the dstore; the ones the
    machine manipulates are numbers (modelled as Int; real-valued
    floating point computation is out of scope), booleans, strings, and
    the value undefined that JS gives for reads of never-written array
    slots (and that _pop writes back into vacated slots). -/

inductive Value where
  | VInt : Int → Value
  | VBool : Bool → Value
  | VStr : String → Value
  | VUndef : Value
deriving DecidableEq

/-- JS truthiness, as used by FJP/TJP/NOT/IOR/AND. -/
def jsTruthy : Value → Bool
  | Value.VInt i => decide (i ≠ 0)
  | Value.VBool b => b
  | Value.VStr str => decide (str ≠ "")
  | Value.VUndef => false

/-- JS relational comparison (a < b) on the value shapes the compiled
    code actually compares; other shapes make the model fail. -/
def jsLessVal : Value → Value → Option Bool
  | Value.VInt a, Value.VInt b => some (decide (a < b))
  | Value.VStr a, Value.VStr b => some (decide (a < b))
  | _, _ => none

/-- JS strict equality on stored values. -/
def jsStrictEq (a b : Value) : Bool := decide (a = b)

/-- Binary integer arithmetic on two stack values; non-numbers make the
    model fail. -/
def vArith (f : Int → Int → Int) : Value → Value → Option Value
  | Value.VInt a, Value.VInt b => some (Value.VInt (f a b))
  | _, _ => none

/-- JS string conversion ("" + v) for the value shapes natives receive. -/
def jsToString : Value → String
  | Value.VInt i => toString i
  | Value.VBool b => if b then "true" else "false"
  | Value.VStr str => str
  | Value.VUndef => "undefined"

/-- The embedded native procedures (the ordered Native registry).  The
    claims only exercise the builtin WriteLn; the other natives are
    host-environment collaborators (graphics, keyboard, ...) outside the
    embedded core. -/
inductive NativeKind where
  | writeln : NativeKind
deriving DecidableEq

/-- The bytecode object (Bytecode.js): instruction store, constant pool,
    typed-constant image, start address and native registry. -/
structure Bytecode where
  istore : List Int
  constants : List Value
  typedConstants : List Value
  startAddress : Int
  native : List NativeKind

/-- The machine state: the data store (a sparse JS array, modelled as a
    total function), the five registers, the running flag, and the lines
    passed to the output callback so far. -/
structure MachineState where
  dstore : Int → Value
  pc : Int
  sp : Int
  mp : Int
  np : Int
  ep : Int
  running : Bool
  output : List String

attribute [ext] MachineState

/-- Size of the data store: new Array(65536). -/
def DSTORE_SIZE : Int := 65536

/-- Pointwise store update. -/
def updateStore (d : Int → Value) (i : Int) (v : Value) : Int → Value :=
  fun j => if j = i then v else d j

/-- Machine._push.  Throws (fails) on undefined, per the sanity check. -/
def push (s : MachineState) (v : Value) : Option MachineState :=
  if v = Value.VUndef then none
  else some { s with dstore := updateStore s.dstore s.sp v, sp := s.sp + 1 }

/-- Machine._pop: decrement sp, read the value, and overwrite the slot
    with undefined (to find bugs more easily, says the source). -/
def pop (s : MachineState) : MachineState × Value :=
  ({ s with sp := s.sp - 1, dstore := updateStore s.dstore (s.sp - 1) Value.VUndef },
   s.dstore (s.sp - 1))

/-- Pop n values as the CSP case does, unshifting each onto the front of
    the parameter list, so the result lists them in push order. -/
def popN : MachineState → Nat → MachineState × List Value
  | s, 0 => (s, [])
  | s, n + 1 =>
      let p := pop s
      let q := popN p.1 n
      (q.1, q.2 ++ [p.2])

/-- Follow the static link (the second mark entry) n times from mp.
    A non-numeric link makes the model fail (the source would chase
    garbage and fail at the subsequent push). -/
def staticLinkChain (s : MachineState) : Int → Nat → Option Int
  | m, 0 => some m
  | m, n + 1 =>
      match s.dstore (m + 1) with
      | Value.VInt sl => staticLinkChain s sl n
      | _ => none

/-- Machine._computeAddress: follow the static link level times, then
    add the offset. -/
def computeAddress (s : MachineState) (level : Nat) (offset : Int) : Option Int :=
  (staticLinkChain s s.mp level).map (fun m => m + offset)

/-- Machine._checkDataAddress: valid when outside [sp, np). -/
def checkDataAddress (s : MachineState) (a : Int) : Bool :=
  ! (s.sp ≤ a && a < s.np)

/-- Machine._malloc: make room (np -= size), zero-fill the block, then
    store the size one word below it (np -= 1).  Returns the block
    address and the new state.  (Despite its doc comment, the source
    never checks for heap exhaustion.) -/
def malloc (s : MachineState) (size : Int) : Int × MachineState :=
  let address := s.np - size
  let zeroed : Int → Value :=
    fun j => if address ≤ j ∧ j < address + size then Value.VInt 0 else s.dstore j
  (address,
   { s with np := address - 1,
            dstore := updateStore zeroed (address - 1) (Value.VInt size) })

/-- Machine._free: read the size stored below the block; if the block is
    at the heap bottom reclaim it, otherwise do nothing.  A non-numeric
    size word at a reclaimable block makes the model fail (the source
    would set np to NaN). -/
def free (s : MachineState) (p : Int) : Option MachineState :=
  if p = s.np + 1 then
    match s.dstore (p - 1) with
    | Value.VInt size => some { s with np := s.np + size + 1 }
    | _ => none
  else
    some s

/-- Machine._executeInstruction, after the fetch: the state already has
    the incremented pc.  A thrown PascalError is modelled as none (the
    driver loop would log it and stop the program; none of the verified
    runs throw). -/
def execInstr (bc : Bytecode) (w : Int) (s : MachineState) : Option MachineState :=
  let opcode := getOpcode w
  let operand1 := getOperand1 w
  let operand2 := getOperand2 w
  if opcode = CUP then
    -- Call User Procedure: back off the parameters and the mark to find
    -- the new mp, store the return address in the mark, and jump.
    let m := s.sp - operand1 - MARK_SIZE
    some { s with mp := m,
                  dstore := updateStore s.dstore (m + 4) (Value.VInt s.pc),
                  pc := operand2 }
  else if opcode = CSP then
    -- Call System Procedure: pop the parameters (first to last), prepend
    -- the control object, and call the native.  WriteLn is void, so no
    -- return value is pushed; its line goes to the output callback.
    match bc.native.get? operand2.toNat with
    | some NativeKind.writeln =>
        let r := popN s operand1.toNat
        some { r.1 with
               output := r.1.output ++ [String.intercalate " " (r.2.map jsToString)] }
    | none => none
  else if opcode = ENT then
    -- Entry: set sp (clearing the new local area) or ep to mp + operand2.
    let address := s.mp + operand2
    if operand1 = 0 then
      some { s with dstore := fun j => if s.sp ≤ j ∧ j < address then Value.VInt 0
                                       else s.dstore j,
                    sp := address }
    else
      some { s with ep := address }
  else if opcode = MST then
    -- Mark Stack: follow static links operand1 times, then push the
    -- five-word mark (rv, sl, dl, ep, ra).
    match staticLinkChain s s.mp operand1.toNat with
    | some sl =>
        (push s (Value.VInt 0)).bind fun s1 =>
        (push s1 (Value.VInt sl)).bind fun s2 =>
        (push s2 (Value.VInt s.mp)).bind fun s3 =>
        (push s3 (Value.VInt s.ep)).bind fun s4 =>
        push s4 (Value.VInt 0)
    | none => none
  else if opcode = RTN then
    -- Return: restore mp, ep, pc from the mark; a procedure drops the
    -- return value slot, a function keeps it.
    match s.dstore (s.mp + 2), s.dstore (s.mp + 3), s.dstore (s.mp + 4) with
    | Value.VInt m, Value.VInt e, Value.VInt r =>
        some { s with mp := m, ep := e, pc := r,
                      sp := if operand1 = P then s.mp else s.mp + 1 }
    | _, _, _ => none
  else if opcode = EQU then
    let p2 := pop s
    let p1 := pop p2.1
    push p1.1 (Value.VBool (jsStrictEq p1.2 p2.2))
  else if opcode = NEQ then
    let p2 := pop s
    let p1 := pop p2.1
    push p1.1 (Value.VBool (! jsStrictEq p1.2 p2.2))
  else if opcode = GRT then
    let p2 := pop s
    let p1 := pop p2.1
    (jsLessVal p2.2 p1.2).bind fun b => push p1.1 (Value.VBool b)
  else if opcode = GEQ then
    let p2 := pop s
    let p1 := pop p2.1
    (jsLessVal p1.2 p2.2).bind fun b => push p1.1 (Value.VBool (! b))
  else if opcode = LES then
    let p2 := pop s
    let p1 := pop p2.1
    (jsLessVal p1.2 p2.2).bind fun b => push p1.1 (Value.VBool b)
  else if opcode = LEQ then
    let p2 := pop s
    let p1 := pop p2.1
    (jsLessVal p2.2 p1.2).bind fun b => push p1.1 (Value.VBool (! b))
  else if opcode = ADI ∨ opcode = ADR then
    let p2 := pop s
    let p1 := pop p2.1
    (vArith (fun a b => a + b) p1.2 p2.2).bind fun v => push p1.1 v
  else if opcode = SBI ∨ opcode = SBR then
    let p2 := pop s
    let p1 := pop p2.1
    (vArith (fun a b => a - b) p1.2 p2.2).bind fun v => push p1.1 v
  else if opcode = NGI ∨ opcode = NGR then
    let p1 := pop s
    match p1.2 with
    | Value.VInt a => push p1.1 (Value.VInt (-a))
    | _ => none
  else if opcode = MPI ∨ opcode = MPR then
    let p2 := pop s
    let p1 := pop p2.1
    (vArith (fun a b => a * b) p1.2 p2.2).bind fun v => push p1.1 v
  else if opcode = DVI then
    -- Integer division: truncation toward zero of the JS division.
    let p2 := pop s
    let p1 := pop p2.1
    if p2.2 = Value.VInt 0 then none
    else (vArith Int.tdiv p1.2 p2.2).bind fun v => push p1.1 v
  else if opcode = MOD then
    -- JS % has the sign of the dividend.
    let p2 := pop s
    let p1 := pop p2.1
    if p2.2 = Value.VInt 0 then none
    else (vArith Int.tmod p1.2 p2.2).bind fun v => push p1.1 v
  else if opcode = INC then
    let p1 := pop s
    match p1.2 with
    | Value.VInt a => push p1.1 (Value.VInt (a + 1))
    | _ => none
  else if opcode = DEC then
    let p1 := pop s
    match p1.2 with
    | Value.VInt a => push p1.1 (Value.VInt (a - 1))
    | _ => none
  else if opcode = DVR then
    -- Real division is floating point, outside the embedded fragment.
    none
  else if opcode = IOR then
    -- JS a || b yields a when truthy, else b.
    let p2 := pop s
    let p1 := pop p2.1
    push p1.1 (if jsTruthy p1.2 then p1.2 else p2.2)
  else if opcode = AND then
    -- JS a && b yields b when a is truthy, else a.
    let p2 := pop s
    let p1 := pop p2.1
    push p1.1 (if jsTruthy p1.2 then p2.2 else p1.2)
  else if opcode = NOT then
    let p1 := pop s
    push p1.1 (Value.VBool (! jsTruthy p1.2))
  else if opcode = UJP then
    some { s with pc := operand2 }
  else if opcode = XJP then
    let p1 := pop s
    match p1.2 with
    | Value.VInt a => some { p1.1 with pc := a }
    | _ => none
  else if opcode = FJP then
    let p1 := pop s
    if jsTruthy p1.2 then some p1.1 else some { p1.1 with pc := operand2 }
  else if opcode = TJP then
    let p1 := pop s
    if jsTruthy p1.2 then some { p1.1 with pc := operand2 } else some p1.1
  else if opcode = FLT then
    -- Cast integer to real: nothing to do in this machine.
    some s
  else if opcode = STP then
    some { s with running := false }
  else if opcode = LDA then
    (computeAddress s operand1.toNat operand2).bind fun a =>
      push s (Value.VInt a)
  else if opcode = LDC then
    if operand1 = I ∨ operand1 = R ∨ operand1 = S ∨ operand1 = A then
      push s (bc.constants.getD operand2.toNat Value.VUndef)
    else if operand1 = B then
      push s (Value.VBool (decide (operand2 ≠ 0)))
    else if operand1 = C then
      push s (Value.VInt operand2)
    else
      none
  else if opcode = LDI then
    let p1 := pop s
    match p1.2 with
    | Value.VInt a =>
        if checkDataAddress p1.1 a then push p1.1 (p1.1.dstore a) else none
    | _ => none
  else if opcode = LVA ∨ opcode = LVB ∨ opcode = LVC ∨ opcode = LVI ∨ opcode = LVR then
    (computeAddress s operand1.toNat operand2).bind fun a =>
      if checkDataAddress s a then push s (s.dstore a) else none
  else if opcode = STI then
    let p1 := pop s
    let p2 := pop p1.1
    match p2.2 with
    | Value.VInt a =>
        if checkDataAddress p2.1 a then
          some { p2.1 with dstore := updateStore p2.1.dstore a p1.2 }
        else none
    | _ => none
  else if opcode = IXA then
    let p1 := pop s
    let p2 := pop p1.1
    match p1.2, p2.2 with
    | Value.VInt a, Value.VInt idx => push p2.1 (Value.VInt (a + idx * operand2))
    | _, _ => none
  else
    none

/-- Fetch the instruction word at an address.  A JS read outside the
    array gives undefined, which the bit-field decoders coerce to 0. -/
def fetchWord (bc : Bytecode) (a : Int) : Int :=
  if 0 ≤ a ∧ a < bc.istore.length then bc.istore.getD a.toNat 0 else 0

/-- One iteration of the Machine.step driver loop: stopped machines do
    nothing; otherwise fetch, advance pc, and execute. -/
def step (bc : Bytecode) (s : MachineState) : Option MachineState :=
  if s.running then execInstr bc (fetchWord bc s.pc) { s with pc := s.pc + 1 }
  else some s

/-- Step count times. -/
def run (bc : Bytecode) : Nat → MachineState → Option MachineState
  | 0, s => some s
  | n + 1, s => (step bc s).bind (run bc n)

/-- The state after Machine._reset on a fresh machine, with the running
    flag already set as Machine.run does: typed constants copied to the
    bottom of the dstore, pc at the start address, np at the top. -/
def initialState (bc : Bytecode) : MachineState :=
  { dstore := fun j => if 0 ≤ j ∧ j < bc.typedConstants.length
                       then bc.typedConstants.getD j.toNat Value.VUndef
                       else Value.VUndef,
    pc := bc.startAddress,
    sp := bc.typedConstants.length,
    mp := 0,
    np := DSTORE_SIZE,
    ep := 0,
    running := true,
    output := [] }

/-- A state is reachable when some number of driver steps from the
    freshly loaded bytecode produces it. -/
def Reachable (bc : Bytecode) (s : MachineState) : Prop :=
  ∃ n, run bc n (initialState bc) = some s

/-! ## SymbolTable.addSymbol.

    Only the address assignment and frame-size bookkeeping are relevant;
    the symbol type is represented by its word size (type.getTypeSize()),
    which is all addSymbol reads from it. -/

/-- The Node.nodeType values addSymbol inspects. -/
inductive NodeType where
  | VAR : NodeType
  | CONST : NodeType
  | TYPED_CONST : NodeType
  | PARAMETER : NodeType
deriving DecidableEq

/-- A Symbol object: name, type (by its size), address, byReference. -/
structure SymbolRec where
  name : String
  typeSize : Int
  address : Int
  byReference : Bool
deriving DecidableEq

/-- The per-scope SymbolTable fields addSymbol touches: the name map
    (newest binding first, since JS assignment overwrites) and the
    frame-size accumulators. -/
structure SymbolTable where
  symbols : List (String × SymbolRec)
  totalVariableSize : Int
  totalParameterSize : Int
  totalTypedConstantsSize : Int
deriving DecidableEq

/-- SymbolTable.addSymbol: assign an address (or the error marker -1),
    grow the frame sizes, and record the symbol under its lowercased
    name.  Returns the Symbol object and the updated table. -/
def addSymbol (st : SymbolTable) (name : String) (nodeType : NodeType)
    (typeSize : Int) (byReference : Bool) : SymbolRec × SymbolTable :=
  let addrTable : Int × SymbolTable :=
    match nodeType with
    | NodeType.VAR =>
        -- All parameters must already have been added.
        (MARK_SIZE + st.totalParameterSize + st.totalVariableSize,
         { st with totalVariableSize := st.totalVariableSize + typeSize })
    | NodeType.CONST => (-1, st)
    | NodeType.TYPED_CONST =>
        -- Copied to the stack at the start of a call, like a variable.
        (MARK_SIZE + st.totalParameterSize + st.totalVariableSize,
         { st with totalVariableSize := st.totalVariableSize + typeSize })
    | NodeType.PARAMETER =>
        (MARK_SIZE + st.totalParameterSize,
         { st with totalParameterSize :=
             st.totalParameterSize + (if byReference then 1 else typeSize) })
  let symbol : SymbolRec :=
    { name := name, typeSize := typeSize, address := addrTable.1,
      byReference := byReference }
  (symbol,
   { addrTable.2 with symbols := (name.toLower, symbol) :: addrTable.2.symbols })

/-! ## Number literal classification.

    Both Parser._parsePrimaryExpression and the NUMBER case of
    Compiler._generateBytecode classify a literal with the same test,
    (v | 0) === v, and use the result as the LDC type code.  The numeric
    value of a literal is modelled exactly as a rational (float64
    rounding of long literals is out of scope). -/

/-- JS truncation toward zero, the first step of the ToInt32 coercion
    performed by (v | 0). -/
def jsTruncQ (v : ℚ) : ℤ := if v < 0 then ⌈v⌉ else ⌊v⌋

/-- The value of (v | 0): ToInt32 of the number v. -/
def jsOrZeroQ (v : ℚ) : ℚ := ((toInt32 (jsTruncQ v) : ℤ) : ℚ)

/-- The LDC type code chosen for a number literal with value v:
    inst.I when (v | 0) === v, otherwise inst.R. -/
def numberTypeCode (v : ℚ) : Int := if jsOrZeroQ v = v then I else R

/-! ## Lexer (with its character Stream).

    Loops are given explicit fuel; every loop iteration consumes at
    least one input character, so any fuel larger than the remaining
    input length makes the fuel-exhausted branches unreachable. -/

/-- The character stream: input, cursor, line counter. -/
structure Stream where
  input : List Char
  position : Nat
  lineNumber : Nat
deriving DecidableEq

/-- Stream.peek: the next character, or none for the -1 EOF marker. -/
def Stream.peekCh (st : Stream) : Option Char := st.input.get? st.position

/-- Stream.next: consume and return the next character (tracking line
    numbers), or return none at EOF. -/
def Stream.nextCh (st : Stream) : Option Char × Stream :=
  match st.input.get? st.position with
  | some c =>
      (some c,
       { st with position := st.position + 1,
                 lineNumber := if c = Char.ofNat 10 then st.lineNumber + 1
                               else st.lineNumber })
  | none => (none, st)

/-- Stream.pushBack: step the cursor back one character.  (The source
    sanity-checks that the pushed-back character matches; the single
    call site in the lexer always satisfies it.) -/
def Stream.pushBack (st : Stream) : Stream :=
  { st with position := st.position - 1 }

/-- Token types from Token.js. -/
inductive TokenType where
  | IDENTIFIER : TokenType
  | NUMBER : TokenType
  | SYMBOL : TokenType
  | COMMENT : TokenType
  | STRING : TokenType
  | EOF : TokenType
  | RESERVED_WORD : TokenType
deriving DecidableEq

/-- A token: value and type (line numbers are irrelevant here; the EOF
    token gets the empty value standing for null). -/
structure Token where
  value : String
  tokenType : TokenType
deriving DecidableEq

def SYMBOLS : List String :=
  ["<", "<>", "<<", ":", ":=", ">", ">>", "<=", ">=", "-", "+",
   "*", "/", ";", ",", "[", "]", "(", ")", "=", "^", "@", "(*"]

def RESERVED_WORDS : List String :=
  ["program", "var", "begin", "end", "type", "procedure", "function",
   "uses", "for", "while", "repeat", "do", "then", "if", "else", "to",
   "downto", "until", "array", "of", "not", "record", "or", "and",
   "div", "mod", "const", "exit"]

def isReservedWord (value : String) : Bool :=
  RESERVED_WORDS.contains value.toLower

def isAlpha (c : Char) : Bool :=
  (decide (Char.ofNat 97 ≤ c) && decide (c ≤ Char.ofNat 122)) ||
  (decide (Char.ofNat 65 ≤ c) && decide (c ≤ Char.ofNat 90))

def isDigit (c : Char) : Bool :=
  decide (Char.ofNat 48 ≤ c) && decide (c ≤ Char.ofNat 57)

def isIdentifierStart (c : Char) : Bool := isAlpha c || c = Char.ofNat 95

def isIdentifierPart (c : Char) : Bool := isIdentifierStart c || isDigit c

def isWhitespace (c : Char) : Bool :=
  c = Char.ofNat 32 || c = Char.ofNat 9 || c = Char.ofNat 10 || c = Char.ofNat 13

/-- The left brace, right brace and single-quote characters. -/
def lbraceCh : Char := Char.ofNat 123
def rbraceCh : Char := Char.ofNat 125
def quoteCh : Char := Char.ofNat 39

/-- JS string concatenation value += ch, where ch may be the number -1
    at EOF: JS coerces it to the string -1. -/
def charStr : Option Char → String
  | some c => String.mk [c]
  | none => "-1"

/-- Lexer._pickLongestToken: try the one- and two-character spellings of
    the current character against the symbol list, preferring the longer
    match and consuming its second character. -/
def pickLongestToken (ch : Char) (st : Stream) : Option (Token × Stream) :=
  let oneCh : String := String.mk [ch]
  let twoCh : String :=
    match st.peekCh with
    | none => oneCh
    | some c2 => String.mk [ch, c2]
  let longest : Option String :=
    SYMBOLS.foldl
      (fun acc sym =>
        if (sym.length = 1 && sym = oneCh) || (sym.length = 2 && sym = twoCh) then
          match acc with
          | none => some sym
          | some cur => if sym.length > cur.length then some sym else some cur
        else acc)
      none
  match longest with
  | none => none
  | some sym =>
      if sym.length = 2 then
        some ({ value := sym, tokenType := TokenType.SYMBOL }, (st.nextCh).2)
      else
        some ({ value := sym, tokenType := TokenType.SYMBOL }, st)

/-- The whitespace-skipping do/while at the top of _fetchNextToken:
    returns the first non-whitespace character (consumed) or none at
    end of file. -/
def skipWs : Nat → Stream → Option (Char × Stream)
  | 0, _ => none
  | fuel + 1, st =>
      match st.nextCh with
      | (none, _) => none
      | (some c, st2) => if isWhitespace c then skipWs fuel st2 else some (c, st2)

/-- The (* ... *) comment loop: accumulate until *) is consumed or EOF
    is hit (which ends the token without any error). -/
def starCommentLoop : Nat → Stream → String → String × Stream
  | 0, st, acc => (acc, st)
  | fuel + 1, st, acc =>
      match st.nextCh with
      | (none, st2) => (acc, st2)
      | (some c, st2) =>
          if c = Char.ofNat 42 && st2.peekCh = some (Char.ofNat 41) then
            (acc, (st2.nextCh).2)
          else
            starCommentLoop fuel st2 (acc ++ String.mk [c])

/-- The identifier loop: extend while the peeked character is an
    identifier part. -/
def identLoop : Nat → Stream → Char → String → String × Stream
  | 0, st, ch, acc => (acc ++ String.mk [ch], st)
  | fuel + 1, st, ch, acc =>
      let acc2 := acc ++ String.mk [ch]
      match st.peekCh with
      | none => (acc2, st)
      | some c2 =>
          if ! isIdentifierPart c2 then (acc2, st)
          else identLoop fuel (st.nextCh).2 c2 acc2

/-- The number loop, with its double-peek-and-push-back handling of
    dots (distinguishing a decimal point from the .. symbol). -/
def numberLoop : Nat → Stream → Char → Bool → String → String × Stream
  | 0, st, ch, _, acc => (acc ++ String.mk [ch], st)
  | fuel + 1, st, ch, saw, acc =>
      let acc2 := acc ++ String.mk [ch]
      match st.peekCh with
      | none => (acc2, st)
      | some c2 =>
          if c2 = Char.ofNat 46 then
            let st3 := (st.nextCh).2
            let n2 := st3.peekCh
            let st4 := st3.pushBack
            if n2 = some (Char.ofNat 46) then (acc2, st4)
            else if saw then (acc2, st4)
            else numberLoop fuel (st4.nextCh).2 c2 true acc2
          else if ! isDigit c2 then (acc2, st)
          else numberLoop fuel (st.nextCh).2 c2 saw acc2

/-- The brace comment loop: the character after the opening brace has
    already been read (it is -1 when the input ends at the brace);
    accumulate until the closing brace or EOF (no error on EOF). -/
def braceCommentLoop : Nat → Stream → Option Char → String → String × Stream
  | 0, st, ch, acc => (acc ++ charStr ch, st)
  | fuel + 1, st, ch, acc =>
      let acc2 := acc ++ charStr ch
      match st.nextCh with
      | (none, st2) => (acc2, st2)
      | (some c2, st2) =>
          if c2 = rbraceCh then (acc2, st2)
          else braceCommentLoop fuel st2 (some c2) acc2

/-- The string literal loop: the character after the opening quote has
    already been read; a doubled quote continues the literal, a single
    quote or EOF ends it (no error on EOF). -/
def stringLoop : Nat → Stream → Option Char → String → String × Stream
  | 0, st, ch, acc => (acc ++ charStr ch, st)
  | fuel + 1, st, ch, acc =>
      let acc2 := acc ++ charStr ch
      match st.nextCh with
      | (none, st2) => (acc2, st2)
      | (some c2, st2) =>
          if c2 = quoteCh then
            if st2.peekCh = some quoteCh then
              stringLoop fuel (st2.nextCh).2 (some c2) acc2
            else (acc2, st2)
          else stringLoop fuel st2 (some c2) acc2

/-- Lexer._fetchNextToken.  The only lex error the source can throw is
    the unknown-symbol one at the end. -/
def fetchNextToken (st : Stream) : Except String (Token × Stream) :=
  let fuel := st.input.length + 1
  match skipWs fuel st with
  | none => Except.ok ({ value := "", tokenType := TokenType.EOF }, st)
  | some (ch, st1) =>
      match pickLongestToken ch st1 with
      | some (t, st2) =>
          if t.tokenType = TokenType.SYMBOL ∧ t.value = "(*" then
            let r := starCommentLoop fuel st2 ""
            Except.ok ({ value := r.1, tokenType := TokenType.COMMENT }, r.2)
          else
            Except.ok (t, st2)
      | none =>
          if isIdentifierStart ch then
            let r := identLoop fuel st1 ch ""
            let tt := if isReservedWord r.1 then TokenType.RESERVED_WORD
                      else TokenType.IDENTIFIER
            Except.ok ({ value := r.1, tokenType := tt }, r.2)
          else if isDigit ch || ch = Char.ofNat 46 then
            if ch = Char.ofNat 46 then
              match st1.peekCh with
              | some c2 =>
                  if c2 = Char.ofNat 46 then
                    Except.ok ({ value := "..", tokenType := TokenType.SYMBOL },
                               (st1.nextCh).2)
                  else if ! isDigit c2 then
                    Except.ok ({ value := ".", tokenType := TokenType.SYMBOL }, st1)
                  else
                    let r := numberLoop fuel st1 ch true ""
                    Except.ok ({ value := r.1, tokenType := TokenType.NUMBER }, r.2)
              | none =>
                  Except.ok ({ value := ".", tokenType := TokenType.SYMBOL }, st1)
            else
              let r := numberLoop fuel st1 ch false ""
              Except.ok ({ value := r.1, tokenType := TokenType.NUMBER }, r.2)
          else if ch = lbraceCh then
            let r0 := st1.nextCh
            let r := braceCommentLoop fuel r0.2 r0.1 ""
            Except.ok ({ value := r.1, tokenType := TokenType.COMMENT }, r.2)
          else if ch = quoteCh then
            let r0 := st1.nextCh
            let r := stringLoop fuel r0.2 r0.1 ""
            Except.ok ({ value := r.1, tokenType := TokenType.STRING }, r.2)
          else
            Except.error "unknown symbol"

/-- A fresh stream over an input. -/
def mkStream (cs : List Char) : Stream :=
  { input := cs, position := 0, lineNumber := 1 }

/-- Whether lexing produced a token rather than throwing a PascalError. -/
def lexOk : Except String (Token × Stream) → Bool
  | Except.ok _ => true
  | Except.error _ => false

/-! ## Concrete fixtures used by counterexamples and witnesses. -/

/-- A minimal call: MST 0; CUP 0 @3; STP; RTN P. -/
def c1Bytecode : Bytecode :=
  { istore := [mkWord 3 0 0, mkWord 0 0 3, mkWord 48 0 0, mkWord 4 7 0],
    constants := [], typedConstants := [], startAddress := 0, native := [] }

/-- The code the compiler emits for a subprogram whose body is the
    single statement for i := lo to hi do begin counter := counter + 1;
    rec := i end, with i, counter, rec the first three local integer
    variables (addresses 5, 6, 7), followed by STP.  The constant pool
    holds lo (cindex 0), hi (cindex 1) and 1 (cindex 2).

       0: ENT 0 8    frame entry, clear locals
       1: LDA 0 5    address of i
       2: LDC I 0    lo
       3: STI 0 0    i := lo
       4: LVI 0 5    top of loop: value of i
       5: LDC I 1    hi
       6: GRT I 0    done with the loop?
       7: TJP 0 21   yes, jump to end
       8: LDA 0 6    address of counter
       9: LVI 0 6    value of counter
      10: LDC I 2    1
      11: ADI 0 0    counter + 1
      12: STI 3 0    store into counter
      13: LDA 0 7    address of rec
      14: LVI 0 5    value of i
      15: STI 3 0    rec := i
      16: LDA 0 5    address of i
      17: LVI 0 5    value of i
      18: INC 3 0    increment loop variable
      19: STI 0 0    store into i
      20: UJP 0 4    jump to top of loop
      21: STP 0 0    end -/
def c2Istore : List Int :=
  [mkWord 2 0 8, mkWord 49 0 5, mkWord 50 3 0, mkWord 58 0 0,
   mkWord 55 0 5, mkWord 50 3 1, mkWord 7 3 0, mkWord 41 0 21,
   mkWord 49 0 6, mkWord 55 0 6, mkWord 50 3 2, mkWord 11 0 0,
   mkWord 58 3 0, mkWord 49 0 7, mkWord 55 0 5, mkWord 58 3 0,
   mkWord 49 0 5, mkWord 55 0 5, mkWord 19 3 0, mkWord 58 0 0,
   mkWord 38 0 4, mkWord 48 0 0]

def c2Bytecode (lo hi : Int) : Bytecode :=
  { istore := c2Istore,
    constants := [Value.VInt lo, Value.VInt hi, Value.VInt 1],
    typedConstants := [], startAddress := 0, native := [] }

/-- The machine state at the top of the c2 loop (pc 4) with loop
    variable k, iteration counter c and last-recorded value r. -/
def c2Loop (k c r : Int) : MachineState :=
  { dstore := fun j =>
      if j = 5 then Value.VInt k
      else if j = 6 then Value.VInt c
      else if j = 7 then Value.VInt r
      else if 0 ≤ j ∧ j < 8 then Value.VInt 0
      else Value.VUndef,
    pc := 4, sp := 8, mp := 0, np := DSTORE_SIZE, ep := 0,
    running := true, output := [] }

/-- The stopped machine state after the c2 loop finishes. -/
def c2Final (k c r : Int) : MachineState :=
  { dstore := fun j =>
      if j = 5 then Value.VInt k
      else if j = 6 then Value.VInt c
      else if j = 7 then Value.VInt r
      else if 0 ≤ j ∧ j < 8 then Value.VInt 0
      else Value.VUndef,
    pc := 22, sp := 8, mp := 0, np := DSTORE_SIZE, ep := 0,
    running := false, output := [] }

/-- A parametrized intermediate state of the c2 run: at pc p with stack
    pointer sp, locals i = k, counter = c, rec = r, and the three slots
    above the frame (addresses 8, 9, 10) holding the scratch values. -/
def c2St (p sp k c r : Int) (v8 v9 v10 : Value) : MachineState :=
  { dstore := fun j =>
      if j = 8 then v8
      else if j = 9 then v9
      else if j = 10 then v10
      else if j = 5 then Value.VInt k
      else if j = 6 then Value.VInt c
      else if j = 7 then Value.VInt r
      else if 0 ≤ j ∧ j < 8 then Value.VInt 0
      else Value.VUndef,
    pc := p, sp := sp, mp := 0, np := DSTORE_SIZE, ep := 0,
    running := true, output := [] }

/-- A bytecode whose typed constants nearly fill the data store and
    whose single instruction pushes a five-word mark: one step collides
    the stack with the heap, and nothing checks. -/
def c4Bytecode : Bytecode :=
  { istore := [mkWord 3 0 0],
    constants := [],
    typedConstants := List.replicate 65534 (Value.VInt 0),
    startAddress := 0, native := [] }

/-- A state whose stack holds the address 0 pushed first and the index 1
    on top, for the IXA counterexample. -/
def c5State : MachineState :=
  { dstore := fun j =>
      if j = 0 then Value.VInt 0
      else if j = 1 then Value.VInt 1
      else Value.VUndef,
    pc := 1, sp := 2, mp := 0, np := DSTORE_SIZE, ep := 0,
    running := true, output := [] }

/-- An empty bytecode whose native registry holds WriteLn at index 0. -/
def c10Bytecode : Bytecode :=
  { istore := [], constants := [], typedConstants := [],
    startAddress := 0, native := [NativeKind.writeln] }

/-- A state with the three WriteLn arguments 12, hello, true pushed. -/
def c10State : MachineState :=
  { dstore := fun j =>
      if j = 0 then Value.VInt 12
      else if j = 1 then Value.VStr "hello"
      else if j = 2 then Value.VBool true
      else Value.VUndef,
    pc := 1, sp := 3, mp := 0, np := DSTORE_SIZE, ep := 0,
    running := true, output := [] }

/-- A bytecode with an empty program, for instruction-level statements
    that do not consult the bytecode. -/
def emptyBytecode : Bytecode :=
  { istore := [], constants := [], typedConstants := [],
    startAddress := 0, native := [] }

/-- The machine state after n driver steps of the c1 bytecode (total by
    construction: every prefix of this run succeeds). -/
def c1sAt (n : Nat) : MachineState :=
  (run c1Bytecode n (initialState c1Bytecode)).getD (initialState c1Bytecode)

/-! # Theorems -/

/-! ## Arithmetic facts about the JS coercions. -/

theorem toInt32_eq_self {x : Int} (h1 : -2147483648 ≤ x) (h2 : x < 2147483648) :
    toInt32 x = x := by
  unfold toInt32
  omega

theorem toUint32_toInt32 (x : Int) : toUint32 (toInt32 x) = toUint32 x := by
  unfold toUint32 toInt32
  omega

theorem toUint32_eq_self {x : Int} (h1 : 0 ≤ x) (h2 : x < 4294967296) :
    toUint32 x = x := by
  unfold toUint32
  omega

/-- Bitwise or of values with disjoint bit ranges is addition. -/
theorem lor_two_pow_mul (k a b : Nat) (h : a < 2 ^ k) :
    a ||| 2 ^ k * b = a + 2 ^ k * b := by
  induction k generalizing a b with
  | zero =>
      simp only [pow_zero, Nat.lt_one_iff] at h
      subst h
      simp
  | succ k ih =>
      have hp : (2 : Nat) ^ (k + 1) = 2 * 2 ^ k := by ring
      have hc2 : 2 ^ (k + 1) * b = 2 * (2 ^ k * b) := by ring
      have hc0 : (2 ^ (k + 1) * b) % 2 = 0 := by
        rw [hc2]
        exact Nat.mul_mod_right 2 _
      have hiff := Nat.or_mod_two_eq_one (a := a) (b := 2 ^ (k + 1) * b)
      have hdiv : (a ||| 2 ^ (k + 1) * b) / 2 = a / 2 ||| 2 ^ k * b := by
        rw [Nat.or_div_two, hc2, Nat.mul_div_cancel_left _ (by norm_num)]
      have hih := ih (a / 2) b (by omega)
      have hfull := Nat.div_add_mod (a ||| 2 ^ (k + 1) * b) 2
      have ha := Nat.div_add_mod a 2
      omega

/-- The three field decoders only use the uint32 bit pattern of the
    word, so the final int32 coercion of make is invisible to them. -/
theorem decode_toInt32 (x : Int) :
    getOpcode (toInt32 x) = getOpcode x ∧
    getOperand1 (toInt32 x) = getOperand1 x ∧
    getOperand2 (toInt32 x) = getOperand2 x := by
  unfold getOpcode getOperand1 getOperand2 jsUshr jsAnd toUint32N
  rw [toUint32_toInt32]
  exact ⟨rfl, rfl, rfl⟩

/-- Masking a uint32-range value with 0xFF takes it mod 256. -/
theorem jsAnd_255 (x : Int) (h0 : 0 ≤ x) (hlt : x < 4294967296) :
    jsAnd x 255 = x % 256 := by
  unfold jsAnd toUint32N
  rw [toUint32_eq_self h0 hlt, toUint32_eq_self (by omega) (by omega)]
  have hand : x.toNat &&& (255 : Int).toNat = x.toNat % 256 := by
    have hm : (255 : Int).toNat = 2 ^ 8 - 1 := by decide
    rw [hm, Nat.and_pow_two_sub_one_eq_mod]
  rw [hand]
  unfold toInt32
  omega

/-- Masking a uint32-range value with 0x1FF takes it mod 512. -/
theorem jsAnd_511 (x : Int) (h0 : 0 ≤ x) (hlt : x < 4294967296) :
    jsAnd x 511 = x % 512 := by
  unfold jsAnd toUint32N
  rw [toUint32_eq_self h0 hlt, toUint32_eq_self (by omega) (by omega)]
  have hand : x.toNat &&& (511 : Int).toNat = x.toNat % 512 := by
    have hm : (511 : Int).toNat = 2 ^ 9 - 1 := by decide
    rw [hm, Nat.and_pow_two_sub_one_eq_mod]
  rw [hand]
  unfold toInt32
  omega

/-- Masking a uint32-range value with 0x7FFF takes it mod 32768. -/
theorem jsAnd_32767 (x : Int) (h0 : 0 ≤ x) (hlt : x < 4294967296) :
    jsAnd x 32767 = x % 32768 := by
  unfold jsAnd toUint32N
  rw [toUint32_eq_self h0 hlt, toUint32_eq_self (by omega) (by omega)]
  have hand : x.toNat &&& (32767 : Int).toNat = x.toNat % 32768 := by
    have hm : (32767 : Int).toNat = 2 ^ 15 - 1 := by decide
    rw [hm, Nat.and_pow_two_sub_one_eq_mod]
  rw [hand]
  unfold toInt32
  omega

/-- Decoding a word assembled from in-range fields recovers the fields. -/
theorem decode_mkWord (op o1 o2 : Int)
    (hop0 : 0 ≤ op) (hop : op ≤ 255) (h10 : 0 ≤ o1) (h1 : o1 ≤ 511)
    (h20 : 0 ≤ o2) (h2 : o2 ≤ 32767) :
    getOpcode (mkWord op o1 o2) = op ∧
    getOperand1 (mkWord op o1 o2) = o1 ∧
    getOperand2 (mkWord op o1 o2) = o2 := by
  have hw0 : 0 ≤ mkWord op o1 o2 := by unfold mkWord; omega
  have hwlt : mkWord op o1 o2 < 4294967296 := by unfold mkWord; omega
  refine ⟨?_, ?_, ?_⟩
  · unfold getOpcode
    have hm : OPCODE_MASK = 255 := by decide
    have hsh : jsUshr (mkWord op o1 o2) OPCODE_SHIFT = mkWord op o1 o2 := by
      unfold jsUshr
      have h0 : OPCODE_SHIFT % 32 = 0 := by decide
      rw [h0, toUint32_eq_self hw0 hwlt]
      norm_num
    rw [hm, hsh, jsAnd_255 _ hw0 hwlt]
    unfold mkWord
    omega
  · unfold getOperand1
    have hm : OPERAND1_MASK = 511 := by decide
    have hsh : jsUshr (mkWord op o1 o2) OPERAND1_SHIFT = mkWord op o1 o2 / 256 := by
      unfold jsUshr
      have h8 : OPERAND1_SHIFT % 32 = 8 := by decide
      rw [h8, toUint32_eq_self hw0 hwlt]
      norm_num
    rw [hm, hsh, jsAnd_511 _ (by omega) (by omega)]
    unfold mkWord
    omega
  · unfold getOperand2
    have hm : OPERAND2_MASK = 32767 := by decide
    have hsh : jsUshr (mkWord op o1 o2) OPERAND2_SHIFT = mkWord op o1 o2 / 131072 := by
      unfold jsUshr
      have h17 : OPERAND2_SHIFT % 32 = 17 := by decide
      rw [h17, toUint32_eq_self hw0 hwlt]
      norm_num
    rw [hm, hsh, jsAnd_32767 _ (by omega) (by omega)]
    unfold mkWord
    omega

/-- For in-range operands, make assembles exactly the disjoint bit-field
    sum (wrapped to int32 by the JS bitwise or). -/
theorem make_eq_mkWord (op o1 o2 : Int)
    (hop0 : 0 ≤ op) (hop : op ≤ 255) (h10 : 0 ≤ o1) (h1 : o1 ≤ 511)
    (h20 : 0 ≤ o2) (h2 : o2 ≤ 32767) :
    make op o1 o2 = Except.ok (toInt32 (mkWord op o1 o2)) := by
  have h28 : (2 : Nat) ^ 8 = 256 := by norm_num
  have h217 : (2 : Nat) ^ 17 = 131072 := by norm_num
  -- the three shifted fields
  have hshl0 : jsShl op OPCODE_SHIFT = op := by
    unfold jsShl
    have h0 : OPCODE_SHIFT % 32 = 0 := by decide
    rw [h0]
    have hin : toInt32 op = op := toInt32_eq_self (by omega) (by omega)
    rw [hin]
    have hpz : op * 2 ^ 0 = op := by ring
    rw [hpz, hin]
  have hshl1 : jsShl o1 OPERAND1_SHIFT = o1 * 256 := by
    unfold jsShl
    have h8 : OPERAND1_SHIFT % 32 = 8 := by decide
    rw [h8]
    have hin : toInt32 o1 = o1 := toInt32_eq_self (by omega) (by omega)
    rw [hin]
    have hp : o1 * 2 ^ 8 = o1 * 256 := by norm_num
    rw [hp]
    exact toInt32_eq_self (by omega) (by omega)
  have hshl2 : jsShl o2 OPERAND2_SHIFT = toInt32 (o2 * 131072) := by
    unfold jsShl
    have h17 : OPERAND2_SHIFT % 32 = 17 := by decide
    rw [h17]
    have hin : toInt32 o2 = o2 := toInt32_eq_self (by omega) (by omega)
    rw [hin]
    norm_num
  -- inner or: op and o1 * 256 occupy disjoint bit ranges
  have hinner : jsOr32 op (o1 * 256) = op + o1 * 256 := by
    unfold jsOr32 toUint32N
    rw [toUint32_eq_self (by omega) (by omega),
        toUint32_eq_self (by omega) (by omega)]
    have hmul : (o1 * 256).toNat = 2 ^ 8 * o1.toNat := by omega
    rw [hmul, lor_two_pow_mul 8 op.toNat o1.toNat (by omega)]
    have hofn : ((op.toNat + 2 ^ 8 * o1.toNat : Nat) : Int) = op + o1 * 256 := by
      omega
    rw [hofn]
    exact toInt32_eq_self (by omega) (by omega)
  -- outer or: the low 17 bits and o2 * 2^17 are disjoint
  have houter : jsOr32 (op + o1 * 256) (toInt32 (o2 * 131072))
      = toInt32 (mkWord op o1 o2) := by
    unfold jsOr32 toUint32N
    rw [toUint32_toInt32, toUint32_eq_self (by omega) (by omega),
        toUint32_eq_self (by omega) (by omega)]
    have hmul : (o2 * 131072).toNat = 2 ^ 17 * o2.toNat := by omega
    rw [hmul, lor_two_pow_mul 17 (op + o1 * 256).toNat o2.toNat (by omega)]
    have hofn : (((op + o1 * 256).toNat + 2 ^ 17 * o2.toNat : Nat) : Int)
        = mkWord op o1 o2 := by
      unfold mkWord
      omega
    rw [hofn]
  unfold make
  rw [if_neg (by omega), if_neg (by unfold OPERAND1_MASK OPERAND1_BITS; omega),
      if_neg (by omega), if_neg (by unfold OPERAND2_MASK OPERAND2_BITS; omega),
      hshl0, hshl1, hshl2, hinner, houter]

/-- C6: for all opcode in [0, 255], operand1 in [0, 511] and operand2 in
    [0, 32767], decoding the word produced by inst.make with getOpcode,
    getOperand1 and getOperand2 yields exactly the three fields. -/
theorem c6_make_roundtrip (op o1 o2 : Int)
    (hop0 : 0 ≤ op) (hop : op ≤ 255) (h10 : 0 ≤ o1) (h1 : o1 ≤ 511)
    (h20 : 0 ≤ o2) (h2 : o2 ≤ 32767) :
    ∃ w, make op o1 o2 = Except.ok w ∧
      getOpcode w = op ∧ getOperand1 w = o1 ∧ getOperand2 w = o2 := by
  refine ⟨toInt32 (mkWord op o1 o2),
          make_eq_mkWord op o1 o2 hop0 hop h10 h1 h20 h2, ?_, ?_, ?_⟩
  · rw [(decode_toInt32 (mkWord op o1 o2)).1]
    exact (decode_mkWord op o1 o2 hop0 hop h10 h1 h20 h2).1
  · rw [(decode_toInt32 (mkWord op o1 o2)).2.1]
    exact (decode_mkWord op o1 o2 hop0 hop h10 h1 h20 h2).2.1
  · rw [(decode_toInt32 (mkWord op o1 o2)).2.2]
    exact (decode_mkWord op o1 o2 hop0 hop h10 h1 h20 h2).2.2

/-- Witness for C6 at the concrete instruction LDC 3 7. -/
theorem c6_make_roundtrip_witness :
    (0 ≤ (50 : Int) ∧ (50 : Int) ≤ 255 ∧ 0 ≤ (3 : Int) ∧ (3 : Int) ≤ 511 ∧
     0 ≤ (7 : Int) ∧ (7 : Int) ≤ 32767) ∧
    ∃ w, make 50 3 7 = Except.ok w ∧
      getOpcode w = 50 ∧ getOperand1 w = 3 ∧ getOperand2 w = 7 :=
  ⟨by decide,
   c6_make_roundtrip 50 3 7 (by decide) (by decide) (by decide) (by decide)
     (by decide) (by decide)⟩

/-! ## C7: symbol table address assignment. -/

/-- C7: a var or typed_const symbol gets address MARK_SIZE (5) plus
    totalParameterSize plus totalVariableSize, and totalVariableSize
    grows by the type size; a parameter gets MARK_SIZE plus
    totalParameterSize, and totalParameterSize grows by one word when
    by reference and by the full type size when by value. -/
theorem c7_addSymbol_layout (st : SymbolTable) (name : String) (sz : Int) (b : Bool) :
    ((addSymbol st name NodeType.VAR sz b).1.address
        = 5 + st.totalParameterSize + st.totalVariableSize ∧
     (addSymbol st name NodeType.VAR sz b).2.totalVariableSize
        = st.totalVariableSize + sz) ∧
    ((addSymbol st name NodeType.TYPED_CONST sz b).1.address
        = 5 + st.totalParameterSize + st.totalVariableSize ∧
     (addSymbol st name NodeType.TYPED_CONST sz b).2.totalVariableSize
        = st.totalVariableSize + sz) ∧
    ((addSymbol st name NodeType.PARAMETER sz b).1.address
        = 5 + st.totalParameterSize) ∧
    ((addSymbol st name NodeType.PARAMETER sz true).2.totalParameterSize
        = st.totalParameterSize + 1) ∧
    ((addSymbol st name NodeType.PARAMETER sz false).2.totalParameterSize
        = st.totalParameterSize + sz) := by
  simp [addSymbol, MARK_SIZE]

/-! ## C3: malloc layout and the malloc/free roundtrip. -/

/-- C3: _malloc(n) decrements np by n + 1, writes n one word below the
    returned address, zero-fills the n-word block there, and an
    immediately following _free of the block restores np exactly. -/
theorem c3_malloc_free (s : MachineState) (n : Int) :
    (malloc s n).2.np = s.np - (n + 1) ∧
    (malloc s n).2.dstore ((malloc s n).1 - 1) = Value.VInt n ∧
    (∀ k : Int, 0 ≤ k → k < n →
      (malloc s n).2.dstore ((malloc s n).1 + k) = Value.VInt 0) ∧
    Option.map MachineState.np (free (malloc s n).2 (malloc s n).1) = some s.np := by
  have hnp : (malloc s n).2.np = s.np - (n + 1) := by
    simp only [malloc]
    omega
  have hsize : (malloc s n).2.dstore ((malloc s n).1 - 1) = Value.VInt n := by
    simp [malloc, updateStore]
  refine ⟨hnp, hsize, ?_, ?_⟩
  · intro k hk0 hkn
    simp only [malloc, updateStore]
    rw [if_neg (by omega), if_pos (by omega)]
  · unfold free
    rw [if_pos (by simp only [malloc]; omega), hsize]
    have hfin : (malloc s n).2.np + n + 1 = s.np := by
      rw [hnp]
      ring
    simp [hfin]

/-! ## C9: number literal classification. -/

/-- The int32 coercion always lands in [-2^31, 2^31). -/
theorem toInt32_bounds (x : Int) :
    -2147483648 ≤ toInt32 x ∧ toInt32 x < 2147483648 := by
  unfold toInt32
  omega

/-- C9 (amended): a number literal is classified as integer (LDC type
    code I) exactly when its value is integral AND fits the signed
    32-bit range; integral values outside that range wrap under (v | 0)
    and are classified as real (type code R). -/
theorem c9_number_classification (v : ℚ) :
    numberTypeCode v = I ↔
      (v.den = 1 ∧ -2147483648 ≤ v ∧ v < 2147483648) := by
  have hIR : (R : Int) ≠ I := by decide
  unfold numberTypeCode
  by_cases h : jsOrZeroQ v = v
  · rw [if_pos h]
    simp only [true_iff, iff_true]
    refine ⟨?_, ?_, ?_⟩
    · rw [← h]
      unfold jsOrZeroQ
      exact Rat.den_intCast _
    · rw [← h]
      unfold jsOrZeroQ
      have := (toInt32_bounds (jsTruncQ v)).1
      exact_mod_cast this
    · rw [← h]
      unfold jsOrZeroQ
      have := (toInt32_bounds (jsTruncQ v)).2
      exact_mod_cast this
  · rw [if_neg h]
    simp only [hIR, false_iff]
    rintro ⟨hden, hlo, hhi⟩
    apply h
    have hv : ((v.num : Int) : ℚ) = v := (Rat.den_eq_one_iff v).mp hden
    have htr : jsTruncQ v = v.num := by
      unfold jsTruncQ
      rw [← hv]
      split
      · exact Int.ceil_intCast _
      · exact Int.floor_intCast _
    have hnlo : -2147483648 ≤ v.num := by
      rw [← hv] at hlo
      exact_mod_cast hlo
    have hnhi : v.num < 2147483648 := by
      rw [← hv] at hhi
      exact_mod_cast hhi
    unfold jsOrZeroQ
    rw [htr, toInt32_eq_self hnlo hnhi, hv]

/-- C9 counterexample: the literal 3000000000 has an integral value but
    is classified as real, refuting classification by integrality alone. -/
theorem c9_counterexample :
    (3000000000 : ℚ).den = 1 ∧ numberTypeCode 3000000000 ≠ I := by
  constructor
  · rfl
  · intro h
    rw [c9_number_classification] at h
    have := h.2.2
    norm_num at this

/-! ## C5: the IXA instruction. -/

/-- C5 (amended): IXA with stride s pops the address a from the top of
    the stack, pops the index i under it, and pushes a + i * s; the
    data store below the new top is unchanged, and the vacated slot
    above it is overwritten with undefined.  (The compiler pushes the
    index first and the address last, matching this order.) -/
theorem c5_ixa (bc : Bytecode) (s : MachineState) (a idx stride : Int)
    (hst0 : 0 ≤ stride) (hst : stride ≤ 32767)
    (htop : s.dstore (s.sp - 1) = Value.VInt a)
    (hsec : s.dstore (s.sp - 2) = Value.VInt idx) :
    execInstr bc (mkWord 59 0 stride) s =
      some { s with
             sp := s.sp - 1,
             dstore := fun j =>
               if j = s.sp - 2 then Value.VInt (a + idx * stride)
               else if j = s.sp - 1 then Value.VUndef
               else s.dstore j } := by
  obtain ⟨hop, ho1, ho2⟩ :=
    decode_mkWord 59 0 stride (by norm_num) (by norm_num) (by norm_num)
      (by norm_num) hst0 hst
  have hv1 : (pop s).2 = Value.VInt a := htop
  have hv2 : (pop (pop s).1).2 = Value.VInt idx := by
    show (pop s).1.dstore ((pop s).1.sp - 1) = Value.VInt idx
    simp only [pop, updateStore]
    rw [if_neg (by omega)]
    have he : s.sp - 1 - 1 = s.sp - 2 := by ring
    rw [he, hsec]
  unfold execInstr
  rw [hop, ho1, ho2]
  norm_num [CUP, CSP, ENT, MST, RTN, EQU, NEQ, GRT, GEQ, LES, LEQ, ADI, SBI,
            NGI, MPI, DVI, MOD, INC, DEC, ADR, SBR, NGR, MPR, DVR, IOR, AND,
            NOT, UJP, XJP, FJP, TJP, FLT, STP, LDA, LDC, LDI, LVA, LVB, LVC,
            LVI, LVR, STI, IXA]
  rw [hv1, hv2]
  dsimp only
  unfold push
  rw [if_neg (by simp)]
  simp only [pop, updateStore, Option.some.injEq]
  apply MachineState.ext
  · funext j
    dsimp only
    simp only [updateStore]
    split_ifs <;> first | rfl | omega
  · rfl
  · dsimp only
    omega
  · rfl
  · rfl
  · rfl
  · rfl
  · rfl

/-- Witness for C5 (amended) at a concrete state. -/
theorem c5_ixa_witness :
    (0 ≤ (2 : Int) ∧ (2 : Int) ≤ 32767 ∧
     c5State.dstore (c5State.sp - 1) = Value.VInt 1 ∧
     c5State.dstore (c5State.sp - 2) = Value.VInt 0) ∧
    execInstr emptyBytecode (mkWord 59 0 2) c5State =
      some { c5State with
             sp := c5State.sp - 1,
             dstore := fun j =>
               if j = c5State.sp - 2 then Value.VInt (1 + 0 * 2)
               else if j = c5State.sp - 1 then Value.VUndef
               else c5State.dstore j } :=
  ⟨⟨by decide, by decide, by decide, by decide⟩,
   c5_ixa emptyBytecode c5State 1 0 2 (by decide) (by decide) (by decide)
     (by decide)⟩

/-- C5 counterexample: with the address 0 pushed first and the index 1
    on top (the order the claim states), the executed IXA with stride 2
    leaves 1 + 0 * 2 = 1 on top, not 0 + 1 * 2 = 2: the machine treats
    the top word as the address, not the index. -/
theorem c5_counterexample :
    Option.map (fun s => s.dstore 0) (execInstr emptyBytecode (mkWord 59 0 2) c5State)
      = some (Value.VInt 1) ∧
    (Value.VInt 1 : Value) ≠ Value.VInt (0 + 1 * 2) := by
  constructor
  · decide
  · decide

/-! ## C10: the native WriteLn procedure. -/

/-- Popping n parameters, CSP-style: the machine loses the top n stack
    slots and the collected list holds their former contents in push
    order; the output log is untouched. -/
theorem popN_spec (m : Nat) (s : MachineState) :
    (popN s m).1.sp = s.sp - m ∧
    (popN s m).1.output = s.output ∧
    (popN s m).2 = (List.range m).map (fun (j : Nat) => s.dstore (s.sp - m + (j : Int))) := by
  induction m generalizing s with
  | zero => simp [popN]
  | succ m ih =>
      obtain ⟨hsp, hout, hvals⟩ := ih (pop s).1
      refine ⟨?_, hout, ?_⟩
      · show (popN (pop s).1 m).1.sp = s.sp - ((m + 1 : Nat) : Int)
        rw [hsp]
        show s.sp - 1 - (m : Int) = _
        push_cast
        ring
      · show (popN (pop s).1 m).2 ++ [(pop s).2]
            = (List.range (m + 1)).map
                (fun (j : Nat) => s.dstore (s.sp - ((m + 1 : Nat) : Int) + (j : Int)))
        rw [hvals, List.range_succ, List.map_append]
        congr 1
        · apply List.map_congr_left
          intro j hj
          have hjm : (j : Int) < m := by
            exact_mod_cast List.mem_range.mp hj
          show (pop s).1.dstore ((pop s).1.sp - (m : Int) + (j : Int)) = _
          simp only [pop, updateStore]
          rw [if_neg (by push_cast; omega)]
          congr 1
          push_cast
          ring
        · simp only [List.map_cons, List.map_nil]
          congr 1
          show s.dstore (s.sp - 1) = _
          congr 1
          push_cast
          ring

/-- C10: executing CSP for a WriteLn native with n arguments emits
    exactly one line, the n popped arguments converted to strings and
    joined by single spaces (the empty line when n = 0), and drops the
    arguments from the stack. -/
theorem c10_writeln_line (bc : Bytecode) (s : MachineState) (n k : Int)
    (hn0 : 0 ≤ n) (hn : n ≤ 511) (hk0 : 0 ≤ k) (hk : k ≤ 32767)
    (hnat : bc.native[k.toNat]? = some NativeKind.writeln) :
    ∃ s2, execInstr bc (mkWord 1 n k) s = some s2 ∧
      s2.output = s.output ++
        [String.intercalate " "
          ((List.range n.toNat).map
            (fun (j : Nat) => jsToString (s.dstore (s.sp - n + (j : Int)))))] ∧
      s2.sp = s.sp - n := by
  obtain ⟨hop, ho1, ho2⟩ :=
    decode_mkWord 1 n k (by norm_num) (by norm_num) hn0 hn hk0 hk
  unfold execInstr
  rw [hop, ho1, ho2]
  norm_num [CUP, CSP]
  rw [hnat]
  obtain ⟨hsp, hout, hvals⟩ := popN_spec n.toNat s
  have hcast : ((n.toNat : Nat) : Int) = n := by omega
  refine ⟨_, rfl, ?_, ?_⟩
  · dsimp only
    rw [hout, hvals]
    simp only [List.map_map, Function.comp_def, hcast]
  · dsimp only
    rw [hsp]
    omega

/-- Witness for C10: WriteLn with the arguments 12, hello, true emits
    the single line 12 hello true. -/
theorem c10_writeln_line_witness :
    (0 ≤ (3 : Int) ∧ (3 : Int) ≤ 511 ∧ 0 ≤ (0 : Int) ∧ (0 : Int) ≤ 32767 ∧
     c10Bytecode.native[(0 : Int).toNat]? = some NativeKind.writeln) ∧
    ∃ s2, execInstr c10Bytecode (mkWord 1 3 0) c10State = some s2 ∧
      s2.output = c10State.output ++
        [String.intercalate " "
          ((List.range (3 : Int).toNat).map
            (fun (j : Nat) => jsToString (c10State.dstore (c10State.sp - 3 + (j : Int)))))] ∧
      s2.sp = c10State.sp - 3 :=
  ⟨⟨by decide, by decide, by decide, by decide, by decide⟩,
   c10_writeln_line c10Bytecode c10State 3 0 (by decide) (by decide) (by decide)
     (by decide) (by decide)⟩

/-! ## Instruction-level step lemmas shared by the frame-effect and
    invariant claims. -/

/-- Executing MST pushes the five-word mark (rv 0, static link, dynamic
    link mp, ep, ra 0) and moves sp up by five; nothing else changes and
    nothing checks against np. -/
theorem execInstr_MST (bc : Bytecode) (s : MachineState) (w : Int) (sl : Int)
    (hop : getOpcode w = 3)
    (hsl : staticLinkChain s s.mp (getOperand1 w).toNat = some sl) :
    execInstr bc w s =
      some { s with
             sp := s.sp + 5,
             dstore := fun j =>
               if j = s.sp then Value.VInt 0
               else if j = s.sp + 1 then Value.VInt sl
               else if j = s.sp + 2 then Value.VInt s.mp
               else if j = s.sp + 3 then Value.VInt s.ep
               else if j = s.sp + 4 then Value.VInt 0
               else s.dstore j } := by
  unfold execInstr
  rw [hop]
  rw [if_neg (by decide : ¬ (3 : Int) = CUP), if_neg (by decide : ¬ (3 : Int) = CSP),
      if_neg (by decide : ¬ (3 : Int) = ENT), if_pos (by decide : (3 : Int) = MST)]
  rw [hsl]
  dsimp only
  unfold push
  simp only [Option.some_bind, reduceCtorEq, if_false, updateStore,
             Option.some.injEq]
  apply MachineState.ext
  · funext j
    dsimp only
    simp only [updateStore]
    split_ifs <;> first | rfl | omega
  · rfl
  · dsimp only
    omega
  · rfl
  · rfl
  · rfl
  · rfl
  · rfl

/-- Unfolding one driver step of a running machine. -/
theorem step_eq (bc : Bytecode) (s : MachineState) (h : s.running = true) :
    step bc s = execInstr bc (fetchWord bc s.pc) { s with pc := s.pc + 1 } := by
  unfold step
  rw [h]
  rw [if_pos rfl]

/-- One driver step is a one-step run. -/
theorem run_one (bc : Bytecode) (s : MachineState) :
    run bc 1 s = step bc s := by
  unfold run
  cases h : step bc s with
  | none => rfl
  | some s2 => rfl

/-! ## C4: the sp ≤ np stack/heap separation. -/

/-- One step of the c4 bytecode reaches a state whose stack pointer is
    past the heap pointer: the mark push does not check for collision. -/
theorem c4_collision_state :
    ∃ s, run c4Bytecode 1 (initialState c4Bytecode) = some s ∧
      s.sp = 65539 ∧ s.np = 65536 := by
  have hsp : (initialState c4Bytecode).sp = 65534 := by
    show (((List.replicate 65534 (Value.VInt 0)).length : Nat) : Int) = 65534
    rw [List.length_replicate]
    norm_num
  have hw : fetchWord c4Bytecode (initialState c4Bytecode).pc = mkWord 3 0 0 := by
    show fetchWord c4Bytecode 0 = mkWord 3 0 0
    unfold fetchWord c4Bytecode
    norm_num
  have hop : getOpcode (mkWord 3 0 0) = 3 := by decide
  have ho1 : (getOperand1 (mkWord 3 0 0)).toNat = 0 := by decide
  have hmst := execInstr_MST c4Bytecode
    { initialState c4Bytecode with pc := (initialState c4Bytecode).pc + 1 }
    (mkWord 3 0 0)
    ({ initialState c4Bytecode with pc := (initialState c4Bytecode).pc + 1 }).mp
    hop (by rw [ho1]; rfl)
  have hrun1 : run c4Bytecode 1 (initialState c4Bytecode)
      = execInstr c4Bytecode (mkWord 3 0 0)
          { initialState c4Bytecode with pc := (initialState c4Bytecode).pc + 1 } := by
    rw [run_one, step_eq c4Bytecode _ rfl, hw]
  rw [hmst] at hrun1
  refine ⟨_, hrun1, ?_, ?_⟩
  · show ({ initialState c4Bytecode with
            pc := (initialState c4Bytecode).pc + 1 }).sp + 5 = (65539 : Int)
    dsimp only
    rw [hsp]
    norm_num
  · rfl

/-- C4 counterexample: sp ≤ np is not an invariant of reachable states;
    the claim fails at the c4 bytecode after one step. -/
theorem c4_counterexample :
    ¬ (∀ bc s, Reachable bc s → s.sp ≤ s.np) := by
  intro h
  obtain ⟨s, hs, hsp, hnp⟩ := c4_collision_state
  have := h c4Bytecode s ⟨1, hs⟩
  omega

/-- C4 (amended): the machine never checks the stack against the heap
    (the ep-based check of the original p-machine is unused), so there
    are loaded bytecodes whose execution reaches a state with np < sp. -/
theorem c4_no_collision_check :
    ∃ bc s, Reachable bc s ∧ s.np < s.sp := by
  obtain ⟨s, hs, hsp, hnp⟩ := c4_collision_state
  exact ⟨c4Bytecode, s, ⟨1, hs⟩, by omega⟩

/-! ## C1: the MST / pushes / CUP ... RTN frame protocol. -/

/-- When the static link chain fails, MST fails. -/
theorem execInstr_MST_none (bc : Bytecode) (s : MachineState) (w : Int)
    (hop : getOpcode w = 3)
    (hsl : staticLinkChain s s.mp (getOperand1 w).toNat = none) :
    execInstr bc w s = none := by
  unfold execInstr
  rw [hop]
  rw [if_neg (by decide : ¬ (3 : Int) = CUP), if_neg (by decide : ¬ (3 : Int) = CSP),
      if_neg (by decide : ¬ (3 : Int) = ENT), if_pos (by decide : (3 : Int) = MST)]
  rw [hsl]

/-- Executing CUP backs the mark pointer off the parameters and the
    mark, stores the return address in the mark, and jumps. -/
theorem execInstr_CUP (bc : Bytecode) (s : MachineState) (w : Int)
    (hop : getOpcode w = 0) :
    execInstr bc w s =
      some { s with
             mp := s.sp - getOperand1 w - MARK_SIZE,
             dstore := updateStore s.dstore (s.sp - getOperand1 w - MARK_SIZE + 4)
                         (Value.VInt s.pc),
             pc := getOperand2 w } := by
  unfold execInstr
  rw [hop, if_pos (by decide : (0 : Int) = CUP)]

/-- Executing RTN with numeric mark slots restores mp, ep and pc from
    the mark and cuts the stack back to the mark base (keeping the
    return value slot for functions). -/
theorem execInstr_RTN (bc : Bytecode) (s : MachineState) (w m e r : Int)
    (hop : getOpcode w = 4)
    (hm : s.dstore (s.mp + 2) = Value.VInt m)
    (he : s.dstore (s.mp + 3) = Value.VInt e)
    (hr : s.dstore (s.mp + 4) = Value.VInt r) :
    execInstr bc w s =
      some { s with mp := m, ep := e, pc := r,
                    sp := if getOperand1 w = P then s.mp else s.mp + 1 } := by
  unfold execInstr
  rw [hop]
  rw [if_neg (by decide : ¬ (4 : Int) = CUP), if_neg (by decide : ¬ (4 : Int) = CSP),
      if_neg (by decide : ¬ (4 : Int) = ENT), if_neg (by decide : ¬ (4 : Int) = MST),
      if_pos (by decide : (4 : Int) = RTN)]
  rw [hm, he, hr]

/-- C1 (amended): a call sequence MST(level), argument pushes that add
    argSize words, CUP(argSize, addr), and the matching RTN (executed
    with the mark intact) restores mp and ep to their pre-MST values and
    leaves sp at the pre-MST sp for a procedure return and one above it
    for a function return; the final pc is the return address, which is
    the address of the instruction following the CUP (not the pre-MST
    pc). -/
theorem c1_frame_effect
    (bc : Bytecode) (s0 s1 s2 s3 s4 s5 : MachineState) (argSize rtype : Int)
    (hrun0 : s0.running = true)
    (hfetch0 : getOpcode (fetchWord bc s0.pc) = 3)
    (h0 : step bc s0 = some s1)
    (hmp12 : s2.mp = s1.mp) (hep12 : s2.ep = s1.ep)
    (hsp12 : s2.sp = s1.sp + argSize)
    (hrun2 : s2.running = true)
    (hdl : s2.dstore (s0.sp + 2) = s1.dstore (s0.sp + 2))
    (hepslot : s2.dstore (s0.sp + 3) = s1.dstore (s0.sp + 3))
    (hfetch2 : getOpcode (fetchWord bc s2.pc) = 0)
    (hargs : getOperand1 (fetchWord bc s2.pc) = argSize)
    (h2 : step bc s2 = some s3)
    (hmp34 : s4.mp = s3.mp)
    (hrun4 : s4.running = true)
    (hm2 : s4.dstore (s3.mp + 2) = s3.dstore (s3.mp + 2))
    (hm3 : s4.dstore (s3.mp + 3) = s3.dstore (s3.mp + 3))
    (hm4 : s4.dstore (s3.mp + 4) = s3.dstore (s3.mp + 4))
    (hfetch4 : getOpcode (fetchWord bc s4.pc) = 4)
    (hrt : getOperand1 (fetchWord bc s4.pc) = rtype)
    (h4 : step bc s4 = some s5) :
    s5.mp = s0.mp ∧ s5.ep = s0.ep ∧
    s5.sp = (if rtype = P then s0.sp else s0.sp + 1) ∧
    s5.pc = s2.pc + 1 := by
  have hms : MARK_SIZE = 5 := rfl
  -- stage 1: the MST step builds the mark at s0.sp
  rw [step_eq bc s0 hrun0] at h0
  cases hchain : staticLinkChain { s0 with pc := s0.pc + 1 }
      ({ s0 with pc := s0.pc + 1 }).mp (getOperand1 (fetchWord bc s0.pc)).toNat with
  | none =>
      rw [execInstr_MST_none bc _ _ hfetch0 hchain] at h0
      exact absurd h0 (by simp)
  | some sl =>
  rw [execInstr_MST bc _ _ sl hfetch0 hchain] at h0
  have hs1 := Option.some.inj h0
  have h1sp : s1.sp = s0.sp + 5 := by rw [← hs1]
  have h1dl : s1.dstore (s0.sp + 2) = Value.VInt s0.mp := by
    rw [← hs1]
    dsimp only
    rw [if_neg (by omega), if_neg (by omega), if_pos rfl]
  have h1eps : s1.dstore (s0.sp + 3) = Value.VInt s0.ep := by
    rw [← hs1]
    dsimp only
    rw [if_neg (by omega), if_neg (by omega), if_neg (by omega), if_pos rfl]
  -- stage 2: the CUP step sets mp back to the pre-MST sp and stores
  -- the return address
  rw [step_eq bc s2 hrun2] at h2
  rw [execInstr_CUP bc _ _ hfetch2] at h2
  have hs3 := Option.some.inj h2
  have h3mp : s3.mp = s0.sp := by
    rw [← hs3]
    dsimp only
    rw [hargs]
    omega
  have h3d2 : s3.dstore (s0.sp + 2) = Value.VInt s0.mp := by
    rw [← hs3]
    dsimp only
    unfold updateStore
    rw [if_neg (by omega)]
    rw [hdl, h1dl]
  have h3d3 : s3.dstore (s0.sp + 3) = Value.VInt s0.ep := by
    rw [← hs3]
    dsimp only
    unfold updateStore
    rw [if_neg (by omega)]
    rw [hepslot, h1eps]
  have h3d4 : s3.dstore (s0.sp + 4) = Value.VInt (s2.pc + 1) := by
    rw [← hs3]
    dsimp only
    unfold updateStore
    rw [if_pos (by omega)]
  -- stage 4: the RTN step reads the intact mark
  rw [step_eq bc s4 hrun4] at h4
  have hr2 : s4.dstore (s4.mp + 2) = Value.VInt s0.mp := by
    rw [hmp34, hm2, h3mp, h3d2]
  have hr3 : s4.dstore (s4.mp + 3) = Value.VInt s0.ep := by
    rw [hmp34, hm3, h3mp, h3d3]
  have hr4 : s4.dstore (s4.mp + 4) = Value.VInt (s2.pc + 1) := by
    rw [hmp34, hm4, h3mp, h3d4]
  rw [execInstr_RTN bc { s4 with pc := s4.pc + 1 } (fetchWord bc s4.pc)
      s0.mp s0.ep (s2.pc + 1) hfetch4 hr2 hr3 hr4] at h4
  have hs5 := Option.some.inj h4
  refine ⟨?_, ?_, ?_, ?_⟩
  · rw [← hs5]
  · rw [← hs5]
  · rw [← hs5]
    dsimp only
    rw [hrt, hmp34, h3mp]
  · rw [← hs5]

/-- Witness for C1 (amended), on the concrete c1 bytecode run
    MST 0; CUP 0 3; STP with the callee RTN P at address 3. -/
theorem c1_frame_effect_witness :
    ((c1sAt 0).running = true ∧
     getOpcode (fetchWord c1Bytecode (c1sAt 0).pc) = 3 ∧
     step c1Bytecode (c1sAt 0) = some (c1sAt 1) ∧
     (c1sAt 1).mp = (c1sAt 1).mp ∧ (c1sAt 1).ep = (c1sAt 1).ep ∧
     (c1sAt 1).sp = (c1sAt 1).sp + 0 ∧
     (c1sAt 1).running = true ∧
     (c1sAt 1).dstore ((c1sAt 0).sp + 2) = (c1sAt 1).dstore ((c1sAt 0).sp + 2) ∧
     (c1sAt 1).dstore ((c1sAt 0).sp + 3) = (c1sAt 1).dstore ((c1sAt 0).sp + 3) ∧
     getOpcode (fetchWord c1Bytecode (c1sAt 1).pc) = 0 ∧
     getOperand1 (fetchWord c1Bytecode (c1sAt 1).pc) = 0 ∧
     step c1Bytecode (c1sAt 1) = some (c1sAt 2) ∧
     (c1sAt 2).mp = (c1sAt 2).mp ∧
     (c1sAt 2).running = true ∧
     getOpcode (fetchWord c1Bytecode (c1sAt 2).pc) = 4 ∧
     getOperand1 (fetchWord c1Bytecode (c1sAt 2).pc) = 7 ∧
     step c1Bytecode (c1sAt 2) = some (c1sAt 3)) ∧
    ((c1sAt 3).mp = (c1sAt 0).mp ∧ (c1sAt 3).ep = (c1sAt 0).ep ∧
     (c1sAt 3).sp = (if (7 : Int) = P then (c1sAt 0).sp else (c1sAt 0).sp + 1) ∧
     (c1sAt 3).pc = (c1sAt 1).pc + 1) :=
  ⟨⟨by decide, by decide, rfl, rfl, rfl, by decide, by decide, rfl, rfl,
    by decide, by decide, rfl, rfl, by decide, by decide, by decide, rfl⟩,
   c1_frame_effect c1Bytecode (c1sAt 0) (c1sAt 1) (c1sAt 1) (c1sAt 2) (c1sAt 2)
     (c1sAt 3) 0 7 (by decide) (by decide) rfl rfl rfl (by decide) (by decide)
     rfl rfl (by decide) (by decide) rfl rfl (by decide) rfl rfl rfl
     (by decide) (by decide) rfl⟩

/-- C1 counterexample: on the concrete call MST 0; CUP 0 3; STP with
    callee RTN P, the pre-MST pc is 0 but the post-RTN pc is 2 (the
    instruction after the CUP), so pc does not return to its pre-MST
    value. -/
theorem c1_counterexample :
    (initialState c1Bytecode).pc = 0 ∧
    Option.map MachineState.pc (run c1Bytecode 3 (initialState c1Bytecode))
      = some 2 ∧
    (2 : Int) ≠ 0 := by
  refine ⟨rfl, ?_, by decide⟩
  decide

/-- A stored VInt is never the undefined value. -/
theorem vint_ne_vundef (i : Int) : ¬ Value.VInt i = Value.VUndef :=
  fun h => Value.noConfusion h

/-- A stored VBool is never the undefined value. -/
theorem vbool_ne_vundef (b : Bool) : ¬ Value.VBool b = Value.VUndef :=
  fun h => Value.noConfusion h

/-- Reading an untouched slot of an updated store. -/
theorem updateStore_ne (d : Int → Value) (i : Int) (v : Value) (j : Int)
    (h : ¬ j = i) : updateStore d i v j = d j := by
  unfold updateStore
  rw [if_neg h]

/-- An address below the stack pointer passes the data address check. -/
theorem checkDataAddress_low (s : MachineState) (a : Int) (h : a < s.sp) :
    checkDataAddress s a = true := by
  unfold checkDataAddress
  rw [decide_eq_false (by omega : ¬ s.sp ≤ a)]
  rfl

/-- ENT with operand1 = 0 clears the area between sp and mp + operand2
    and sets sp there. -/
theorem execInstr_ENT0 (bc : Bytecode) (s : MachineState) (w n : Int)
    (hop : getOpcode w = 2) (h1 : getOperand1 w = 0) (h2 : getOperand2 w = n) :
    execInstr bc w s =
      some { s with
             dstore := fun j => if s.sp ≤ j ∧ j < s.mp + n then Value.VInt 0
                                else s.dstore j,
             sp := s.mp + n } := by
  unfold execInstr
  rw [hop, h1, h2]
  rw [if_neg (by decide : ¬ (2 : Int) = CUP),
      if_neg (by decide : ¬ (2 : Int) = CSP),
      if_pos (by decide : (2 : Int) = ENT)]
  rw [if_pos (rfl : (0 : Int) = 0)]

/-- GRT pops b (top) and a, and pushes the boolean a > b. -/
theorem execInstr_GRT (bc : Bytecode) (s : MachineState) (w b1 b2 : Int)
    (hop : getOpcode w = 7)
    (hv2 : s.dstore (s.sp - 1) = Value.VInt b2)
    (hv1 : s.dstore (s.sp - 1 - 1) = Value.VInt b1) :
    execInstr bc w s =
      some { s with
             dstore := updateStore (updateStore (updateStore s.dstore (s.sp - 1)
               Value.VUndef) (s.sp - 1 - 1) Value.VUndef) (s.sp - 1 - 1)
               (Value.VBool (decide (b2 < b1))),
             sp := s.sp - 1 - 1 + 1 } := by
  unfold execInstr
  rw [hop]
  rw [if_neg (by decide : ¬ (7 : Int) = CUP),
      if_neg (by decide : ¬ (7 : Int) = CSP),
      if_neg (by decide : ¬ (7 : Int) = ENT),
      if_neg (by decide : ¬ (7 : Int) = MST),
      if_neg (by decide : ¬ (7 : Int) = RTN),
      if_neg (by decide : ¬ (7 : Int) = EQU),
      if_neg (by decide : ¬ (7 : Int) = NEQ),
      if_pos (by decide : (7 : Int) = GRT)]
  dsimp only [pop]
  rw [hv2, updateStore_ne s.dstore (s.sp - 1) Value.VUndef (s.sp - 1 - 1)
        (by omega : ¬ s.sp - 1 - 1 = s.sp - 1), hv1]
  dsimp only [jsLessVal]
  rw [Option.some_bind]
  unfold push
  rw [if_neg (vbool_ne_vundef (decide (b2 < b1)))]

/-- ADI pops b (top) and a, and pushes a + b. -/
theorem execInstr_ADI (bc : Bytecode) (s : MachineState) (w b1 b2 : Int)
    (hop : getOpcode w = 11)
    (hv2 : s.dstore (s.sp - 1) = Value.VInt b2)
    (hv1 : s.dstore (s.sp - 1 - 1) = Value.VInt b1) :
    execInstr bc w s =
      some { s with
             dstore := updateStore (updateStore (updateStore s.dstore (s.sp - 1)
               Value.VUndef) (s.sp - 1 - 1) Value.VUndef) (s.sp - 1 - 1)
               (Value.VInt (b1 + b2)),
             sp := s.sp - 1 - 1 + 1 } := by
  unfold execInstr
  rw [hop]
  rw [if_neg (by decide : ¬ (11 : Int) = CUP),
      if_neg (by decide : ¬ (11 : Int) = CSP),
      if_neg (by decide : ¬ (11 : Int) = ENT),
      if_neg (by decide : ¬ (11 : Int) = MST),
      if_neg (by decide : ¬ (11 : Int) = RTN),
      if_neg (by decide : ¬ (11 : Int) = EQU),
      if_neg (by decide : ¬ (11 : Int) = NEQ),
      if_neg (by decide : ¬ (11 : Int) = GRT),
      if_neg (by decide : ¬ (11 : Int) = GEQ),
      if_neg (by decide : ¬ (11 : Int) = LES),
      if_neg (by decide : ¬ (11 : Int) = LEQ),
      if_pos (by decide : (11 : Int) = ADI ∨ (11 : Int) = ADR)]
  dsimp only [pop]
  rw [hv2, updateStore_ne s.dstore (s.sp - 1) Value.VUndef (s.sp - 1 - 1)
        (by omega : ¬ s.sp - 1 - 1 = s.sp - 1), hv1]
  dsimp only [vArith]
  rw [Option.some_bind]
  unfold push
  rw [if_neg (vint_ne_vundef (b1 + b2))]

/-- INC increments the integer on top of the stack. -/
theorem execInstr_INC (bc : Bytecode) (s : MachineState) (w a : Int)
    (hop : getOpcode w = 19)
    (hv : s.dstore (s.sp - 1) = Value.VInt a) :
    execInstr bc w s =
      some { s with
             dstore := updateStore (updateStore s.dstore (s.sp - 1) Value.VUndef)
               (s.sp - 1) (Value.VInt (a + 1)),
             sp := s.sp - 1 + 1 } := by
  unfold execInstr
  rw [hop]
  rw [if_neg (by decide : ¬ (19 : Int) = CUP),
      if_neg (by decide : ¬ (19 : Int) = CSP),
      if_neg (by decide : ¬ (19 : Int) = ENT),
      if_neg (by decide : ¬ (19 : Int) = MST),
      if_neg (by decide : ¬ (19 : Int) = RTN),
      if_neg (by decide : ¬ (19 : Int) = EQU),
      if_neg (by decide : ¬ (19 : Int) = NEQ),
      if_neg (by decide : ¬ (19 : Int) = GRT),
      if_neg (by decide : ¬ (19 : Int) = GEQ),
      if_neg (by decide : ¬ (19 : Int) = LES),
      if_neg (by decide : ¬ (19 : Int) = LEQ),
      if_neg (by decide : ¬ ((19 : Int) = ADI ∨ (19 : Int) = ADR)),
      if_neg (by decide : ¬ ((19 : Int) = SBI ∨ (19 : Int) = SBR)),
      if_neg (by decide : ¬ ((19 : Int) = NGI ∨ (19 : Int) = NGR)),
      if_neg (by decide : ¬ ((19 : Int) = MPI ∨ (19 : Int) = MPR)),
      if_neg (by decide : ¬ (19 : Int) = DVI),
      if_neg (by decide : ¬ (19 : Int) = MOD),
      if_pos (by decide : (19 : Int) = INC)]
  dsimp only [pop]
  rw [hv]
  dsimp only
  unfold push
  rw [if_neg (vint_ne_vundef (a + 1))]

/-- UJP jumps unconditionally. -/
theorem execInstr_UJP (bc : Bytecode) (s : MachineState) (w n : Int)
    (hop : getOpcode w = 38) (h2 : getOperand2 w = n) :
    execInstr bc w s = some { s with pc := n } := by
  unfold execInstr
  rw [hop, h2]
  rw [if_neg (by decide : ¬ (38 : Int) = CUP),
      if_neg (by decide : ¬ (38 : Int) = CSP),
      if_neg (by decide : ¬ (38 : Int) = ENT),
      if_neg (by decide : ¬ (38 : Int) = MST),
      if_neg (by decide : ¬ (38 : Int) = RTN),
      if_neg (by decide : ¬ (38 : Int) = EQU),
      if_neg (by decide : ¬ (38 : Int) = NEQ),
      if_neg (by decide : ¬ (38 : Int) = GRT),
      if_neg (by decide : ¬ (38 : Int) = GEQ),
      if_neg (by decide : ¬ (38 : Int) = LES),
      if_neg (by decide : ¬ (38 : Int) = LEQ),
      if_neg (by decide : ¬ ((38 : Int) = ADI ∨ (38 : Int) = ADR)),
      if_neg (by decide : ¬ ((38 : Int) = SBI ∨ (38 : Int) = SBR)),
      if_neg (by decide : ¬ ((38 : Int) = NGI ∨ (38 : Int) = NGR)),
      if_neg (by decide : ¬ ((38 : Int) = MPI ∨ (38 : Int) = MPR)),
      if_neg (by decide : ¬ (38 : Int) = DVI),
      if_neg (by decide : ¬ (38 : Int) = MOD),
      if_neg (by decide : ¬ (38 : Int) = INC),
      if_neg (by decide : ¬ (38 : Int) = DEC),
      if_neg (by decide : ¬ (38 : Int) = DVR),
      if_neg (by decide : ¬ (38 : Int) = IOR),
      if_neg (by decide : ¬ (38 : Int) = AND),
      if_neg (by decide : ¬ (38 : Int) = NOT),
      if_pos (by decide : (38 : Int) = UJP)]

/-- TJP with a false boolean on top falls through, popping it. -/
theorem execInstr_TJP_false (bc : Bytecode) (s : MachineState) (w : Int)
    (hop : getOpcode w = 41)
    (hv : jsTruthy (s.dstore (s.sp - 1)) = false) :
    execInstr bc w s =
      some { s with
             dstore := updateStore s.dstore (s.sp - 1) Value.VUndef,
             sp := s.sp - 1 } := by
  unfold execInstr
  rw [hop]
  rw [if_neg (by decide : ¬ (41 : Int) = CUP),
      if_neg (by decide : ¬ (41 : Int) = CSP),
      if_neg (by decide : ¬ (41 : Int) = ENT),
      if_neg (by decide : ¬ (41 : Int) = MST),
      if_neg (by decide : ¬ (41 : Int) = RTN),
      if_neg (by decide : ¬ (41 : Int) = EQU),
      if_neg (by decide : ¬ (41 : Int) = NEQ),
      if_neg (by decide : ¬ (41 : Int) = GRT),
      if_neg (by decide : ¬ (41 : Int) = GEQ),
      if_neg (by decide : ¬ (41 : Int) = LES),
      if_neg (by decide : ¬ (41 : Int) = LEQ),
      if_neg (by decide : ¬ ((41 : Int) = ADI ∨ (41 : Int) = ADR)),
      if_neg (by decide : ¬ ((41 : Int) = SBI ∨ (41 : Int) = SBR)),
      if_neg (by decide : ¬ ((41 : Int) = NGI ∨ (41 : Int) = NGR)),
      if_neg (by decide : ¬ ((41 : Int) = MPI ∨ (41 : Int) = MPR)),
      if_neg (by decide : ¬ (41 : Int) = DVI),
      if_neg (by decide : ¬ (41 : Int) = MOD),
      if_neg (by decide : ¬ (41 : Int) = INC),
      if_neg (by decide : ¬ (41 : Int) = DEC),
      if_neg (by decide : ¬ (41 : Int) = DVR),
      if_neg (by decide : ¬ (41 : Int) = IOR),
      if_neg (by decide : ¬ (41 : Int) = AND),
      if_neg (by decide : ¬ (41 : Int) = NOT),
      if_neg (by decide : ¬ (41 : Int) = UJP),
      if_neg (by decide : ¬ (41 : Int) = XJP),
      if_neg (by decide : ¬ (41 : Int) = FJP),
      if_pos (by decide : (41 : Int) = TJP)]
  dsimp only [pop]
  rw [if_neg]
  rw [hv]
  decide

/-- TJP with a true boolean on top pops it and jumps. -/
theorem execInstr_TJP_true (bc : Bytecode) (s : MachineState) (w n : Int)
    (hop : getOpcode w = 41) (h2 : getOperand2 w = n)
    (hv : jsTruthy (s.dstore (s.sp - 1)) = true) :
    execInstr bc w s =
      some { s with
             dstore := updateStore s.dstore (s.sp - 1) Value.VUndef,
             sp := s.sp - 1,
             pc := n } := by
  unfold execInstr
  rw [hop, h2]
  rw [if_neg (by decide : ¬ (41 : Int) = CUP),
      if_neg (by decide : ¬ (41 : Int) = CSP),
      if_neg (by decide : ¬ (41 : Int) = ENT),
      if_neg (by decide : ¬ (41 : Int) = MST),
      if_neg (by decide : ¬ (41 : Int) = RTN),
      if_neg (by decide : ¬ (41 : Int) = EQU),
      if_neg (by decide : ¬ (41 : Int) = NEQ),
      if_neg (by decide : ¬ (41 : Int) = GRT),
      if_neg (by decide : ¬ (41 : Int) = GEQ),
      if_neg (by decide : ¬ (41 : Int) = LES),
      if_neg (by decide : ¬ (41 : Int) = LEQ),
      if_neg (by decide : ¬ ((41 : Int) = ADI ∨ (41 : Int) = ADR)),
      if_neg (by decide : ¬ ((41 : Int) = SBI ∨ (41 : Int) = SBR)),
      if_neg (by decide : ¬ ((41 : Int) = NGI ∨ (41 : Int) = NGR)),
      if_neg (by decide : ¬ ((41 : Int) = MPI ∨ (41 : Int) = MPR)),
      if_neg (by decide : ¬ (41 : Int) = DVI),
      if_neg (by decide : ¬ (41 : Int) = MOD),
      if_neg (by decide : ¬ (41 : Int) = INC),
      if_neg (by decide : ¬ (41 : Int) = DEC),
      if_neg (by decide : ¬ (41 : Int) = DVR),
      if_neg (by decide : ¬ (41 : Int) = IOR),
      if_neg (by decide : ¬ (41 : Int) = AND),
      if_neg (by decide : ¬ (41 : Int) = NOT),
      if_neg (by decide : ¬ (41 : Int) = UJP),
      if_neg (by decide : ¬ (41 : Int) = XJP),
      if_neg (by decide : ¬ (41 : Int) = FJP),
      if_pos (by decide : (41 : Int) = TJP)]
  dsimp only [pop]
  rw [if_pos]
  exact hv

/-- STP clears the running flag. -/
theorem execInstr_STP (bc : Bytecode) (s : MachineState) (w : Int)
    (hop : getOpcode w = 48) :
    execInstr bc w s = some { s with running := false } := by
  unfold execInstr
  rw [hop]
  rw [if_neg (by decide : ¬ (48 : Int) = CUP),
      if_neg (by decide : ¬ (48 : Int) = CSP),
      if_neg (by decide : ¬ (48 : Int) = ENT),
      if_neg (by decide : ¬ (48 : Int) = MST),
      if_neg (by decide : ¬ (48 : Int) = RTN),
      if_neg (by decide : ¬ (48 : Int) = EQU),
      if_neg (by decide : ¬ (48 : Int) = NEQ),
      if_neg (by decide : ¬ (48 : Int) = GRT),
      if_neg (by decide : ¬ (48 : Int) = GEQ),
      if_neg (by decide : ¬ (48 : Int) = LES),
      if_neg (by decide : ¬ (48 : Int) = LEQ),
      if_neg (by decide : ¬ ((48 : Int) = ADI ∨ (48 : Int) = ADR)),
      if_neg (by decide : ¬ ((48 : Int) = SBI ∨ (48 : Int) = SBR)),
      if_neg (by decide : ¬ ((48 : Int) = NGI ∨ (48 : Int) = NGR)),
      if_neg (by decide : ¬ ((48 : Int) = MPI ∨ (48 : Int) = MPR)),
      if_neg (by decide : ¬ (48 : Int) = DVI),
      if_neg (by decide : ¬ (48 : Int) = MOD),
      if_neg (by decide : ¬ (48 : Int) = INC),
      if_neg (by decide : ¬ (48 : Int) = DEC),
      if_neg (by decide : ¬ (48 : Int) = DVR),
      if_neg (by decide : ¬ (48 : Int) = IOR),
      if_neg (by decide : ¬ (48 : Int) = AND),
      if_neg (by decide : ¬ (48 : Int) = NOT),
      if_neg (by decide : ¬ (48 : Int) = UJP),
      if_neg (by decide : ¬ (48 : Int) = XJP),
      if_neg (by decide : ¬ (48 : Int) = FJP),
      if_neg (by decide : ¬ (48 : Int) = TJP),
      if_neg (by decide : ¬ (48 : Int) = FLT),
      if_pos (by decide : (48 : Int) = STP)]

/-- LDA at level 0 pushes the address mp + operand2. -/
theorem execInstr_LDA0 (bc : Bytecode) (s : MachineState) (w n : Int)
    (hop : getOpcode w = 49) (h1 : getOperand1 w = 0) (h2 : getOperand2 w = n) :
    execInstr bc w s =
      some { s with
             dstore := updateStore s.dstore s.sp (Value.VInt (s.mp + n)),
             sp := s.sp + 1 } := by
  unfold execInstr
  rw [hop, h1, h2]
  rw [if_neg (by decide : ¬ (49 : Int) = CUP),
      if_neg (by decide : ¬ (49 : Int) = CSP),
      if_neg (by decide : ¬ (49 : Int) = ENT),
      if_neg (by decide : ¬ (49 : Int) = MST),
      if_neg (by decide : ¬ (49 : Int) = RTN),
      if_neg (by decide : ¬ (49 : Int) = EQU),
      if_neg (by decide : ¬ (49 : Int) = NEQ),
      if_neg (by decide : ¬ (49 : Int) = GRT),
      if_neg (by decide : ¬ (49 : Int) = GEQ),
      if_neg (by decide : ¬ (49 : Int) = LES),
      if_neg (by decide : ¬ (49 : Int) = LEQ),
      if_neg (by decide : ¬ ((49 : Int) = ADI ∨ (49 : Int) = ADR)),
      if_neg (by decide : ¬ ((49 : Int) = SBI ∨ (49 : Int) = SBR)),
      if_neg (by decide : ¬ ((49 : Int) = NGI ∨ (49 : Int) = NGR)),
      if_neg (by decide : ¬ ((49 : Int) = MPI ∨ (49 : Int) = MPR)),
      if_neg (by decide : ¬ (49 : Int) = DVI),
      if_neg (by decide : ¬ (49 : Int) = MOD),
      if_neg (by decide : ¬ (49 : Int) = INC),
      if_neg (by decide : ¬ (49 : Int) = DEC),
      if_neg (by decide : ¬ (49 : Int) = DVR),
      if_neg (by decide : ¬ (49 : Int) = IOR),
      if_neg (by decide : ¬ (49 : Int) = AND),
      if_neg (by decide : ¬ (49 : Int) = NOT),
      if_neg (by decide : ¬ (49 : Int) = UJP),
      if_neg (by decide : ¬ (49 : Int) = XJP),
      if_neg (by decide : ¬ (49 : Int) = FJP),
      if_neg (by decide : ¬ (49 : Int) = TJP),
      if_neg (by decide : ¬ (49 : Int) = FLT),
      if_neg (by decide : ¬ (49 : Int) = STP),
      if_pos (by decide : (49 : Int) = LDA)]
  rw [show computeAddress s (Int.toNat 0) n = some (s.mp + n) from rfl,
      Option.some_bind]
  unfold push
  rw [if_neg (vint_ne_vundef (s.mp + n))]

/-- LDC of a pool-typed constant pushes the constant pool entry. -/
theorem execInstr_LDC_I (bc : Bytecode) (s : MachineState) (w n : Int) (v : Value)
    (hop : getOpcode w = 50) (h1 : getOperand1 w = 3) (h2 : getOperand2 w = n)
    (hc : bc.constants.getD n.toNat Value.VUndef = v) (hvu : ¬ v = Value.VUndef) :
    execInstr bc w s =
      some { s with
             dstore := updateStore s.dstore s.sp v,
             sp := s.sp + 1 } := by
  unfold execInstr
  rw [hop, h1, h2]
  rw [if_neg (by decide : ¬ (50 : Int) = CUP),
      if_neg (by decide : ¬ (50 : Int) = CSP),
      if_neg (by decide : ¬ (50 : Int) = ENT),
      if_neg (by decide : ¬ (50 : Int) = MST),
      if_neg (by decide : ¬ (50 : Int) = RTN),
      if_neg (by decide : ¬ (50 : Int) = EQU),
      if_neg (by decide : ¬ (50 : Int) = NEQ),
      if_neg (by decide : ¬ (50 : Int) = GRT),
      if_neg (by decide : ¬ (50 : Int) = GEQ),
      if_neg (by decide : ¬ (50 : Int) = LES),
      if_neg (by decide : ¬ (50 : Int) = LEQ),
      if_neg (by decide : ¬ ((50 : Int) = ADI ∨ (50 : Int) = ADR)),
      if_neg (by decide : ¬ ((50 : Int) = SBI ∨ (50 : Int) = SBR)),
      if_neg (by decide : ¬ ((50 : Int) = NGI ∨ (50 : Int) = NGR)),
      if_neg (by decide : ¬ ((50 : Int) = MPI ∨ (50 : Int) = MPR)),
      if_neg (by decide : ¬ (50 : Int) = DVI),
      if_neg (by decide : ¬ (50 : Int) = MOD),
      if_neg (by decide : ¬ (50 : Int) = INC),
      if_neg (by decide : ¬ (50 : Int) = DEC),
      if_neg (by decide : ¬ (50 : Int) = DVR),
      if_neg (by decide : ¬ (50 : Int) = IOR),
      if_neg (by decide : ¬ (50 : Int) = AND),
      if_neg (by decide : ¬ (50 : Int) = NOT),
      if_neg (by decide : ¬ (50 : Int) = UJP),
      if_neg (by decide : ¬ (50 : Int) = XJP),
      if_neg (by decide : ¬ (50 : Int) = FJP),
      if_neg (by decide : ¬ (50 : Int) = TJP),
      if_neg (by decide : ¬ (50 : Int) = FLT),
      if_neg (by decide : ¬ (50 : Int) = STP),
      if_neg (by decide : ¬ (50 : Int) = LDA),
      if_pos (by decide : (50 : Int) = LDC)]
  rw [if_pos (by decide : (3 : Int) = I ∨ (3 : Int) = R ∨ (3 : Int) = S ∨ (3 : Int) = A)]
  rw [hc]
  unfold push
  rw [if_neg hvu]

/-- LVI at level 0 pushes the value stored at mp + operand2. -/
theorem execInstr_LVI0 (bc : Bytecode) (s : MachineState) (w n : Int) (v : Value)
    (hop : getOpcode w = 55) (h1 : getOperand1 w = 0) (h2 : getOperand2 w = n)
    (hchk : checkDataAddress s (s.mp + n) = true)
    (hv : s.dstore (s.mp + n) = v) (hvu : ¬ v = Value.VUndef) :
    execInstr bc w s =
      some { s with
             dstore := updateStore s.dstore s.sp v,
             sp := s.sp + 1 } := by
  unfold execInstr
  rw [hop, h1, h2]
  rw [if_neg (by decide : ¬ (55 : Int) = CUP),
      if_neg (by decide : ¬ (55 : Int) = CSP),
      if_neg (by decide : ¬ (55 : Int) = ENT),
      if_neg (by decide : ¬ (55 : Int) = MST),
      if_neg (by decide : ¬ (55 : Int) = RTN),
      if_neg (by decide : ¬ (55 : Int) = EQU),
      if_neg (by decide : ¬ (55 : Int) = NEQ),
      if_neg (by decide : ¬ (55 : Int) = GRT),
      if_neg (by decide : ¬ (55 : Int) = GEQ),
      if_neg (by decide : ¬ (55 : Int) = LES),
      if_neg (by decide : ¬ (55 : Int) = LEQ),
      if_neg (by decide : ¬ ((55 : Int) = ADI ∨ (55 : Int) = ADR)),
      if_neg (by decide : ¬ ((55 : Int) = SBI ∨ (55 : Int) = SBR)),
      if_neg (by decide : ¬ ((55 : Int) = NGI ∨ (55 : Int) = NGR)),
      if_neg (by decide : ¬ ((55 : Int) = MPI ∨ (55 : Int) = MPR)),
      if_neg (by decide : ¬ (55 : Int) = DVI),
      if_neg (by decide : ¬ (55 : Int) = MOD),
      if_neg (by decide : ¬ (55 : Int) = INC),
      if_neg (by decide : ¬ (55 : Int) = DEC),
      if_neg (by decide : ¬ (55 : Int) = DVR),
      if_neg (by decide : ¬ (55 : Int) = IOR),
      if_neg (by decide : ¬ (55 : Int) = AND),
      if_neg (by decide : ¬ (55 : Int) = NOT),
      if_neg (by decide : ¬ (55 : Int) = UJP),
      if_neg (by decide : ¬ (55 : Int) = XJP),
      if_neg (by decide : ¬ (55 : Int) = FJP),
      if_neg (by decide : ¬ (55 : Int) = TJP),
      if_neg (by decide : ¬ (55 : Int) = FLT),
      if_neg (by decide : ¬ (55 : Int) = STP),
      if_neg (by decide : ¬ (55 : Int) = LDA),
      if_neg (by decide : ¬ (55 : Int) = LDC),
      if_neg (by decide : ¬ (55 : Int) = LDI),
      if_pos (by decide : (55 : Int) = LVA ∨ (55 : Int) = LVB ∨ (55 : Int) = LVC ∨ (55 : Int) = LVI ∨ (55 : Int) = LVR)]
  rw [show computeAddress s (Int.toNat 0) n = some (s.mp + n) from rfl,
      Option.some_bind]
  rw [if_pos hchk]
  rw [hv]
  unfold push
  rw [if_neg hvu]

/-- STI pops a value (top) and an address and stores the value at the
    address, which must lie below the popped stack. -/
theorem execInstr_STI (bc : Bytecode) (s : MachineState) (w a : Int) (v : Value)
    (hop : getOpcode w = 58)
    (hv : s.dstore (s.sp - 1) = v)
    (ha : s.dstore (s.sp - 1 - 1) = Value.VInt a)
    (ha2 : a < s.sp - 1 - 1) :
    execInstr bc w s =
      some { s with
             dstore := updateStore (updateStore (updateStore s.dstore (s.sp - 1)
               Value.VUndef) (s.sp - 1 - 1) Value.VUndef) a v,
             sp := s.sp - 1 - 1 } := by
  unfold execInstr
  rw [hop]
  rw [if_neg (by decide : ¬ (58 : Int) = CUP),
      if_neg (by decide : ¬ (58 : Int) = CSP),
      if_neg (by decide : ¬ (58 : Int) = ENT),
      if_neg (by decide : ¬ (58 : Int) = MST),
      if_neg (by decide : ¬ (58 : Int) = RTN),
      if_neg (by decide : ¬ (58 : Int) = EQU),
      if_neg (by decide : ¬ (58 : Int) = NEQ),
      if_neg (by decide : ¬ (58 : Int) = GRT),
      if_neg (by decide : ¬ (58 : Int) = GEQ),
      if_neg (by decide : ¬ (58 : Int) = LES),
      if_neg (by decide : ¬ (58 : Int) = LEQ),
      if_neg (by decide : ¬ ((58 : Int) = ADI ∨ (58 : Int) = ADR)),
      if_neg (by decide : ¬ ((58 : Int) = SBI ∨ (58 : Int) = SBR)),
      if_neg (by decide : ¬ ((58 : Int) = NGI ∨ (58 : Int) = NGR)),
      if_neg (by decide : ¬ ((58 : Int) = MPI ∨ (58 : Int) = MPR)),
      if_neg (by decide : ¬ (58 : Int) = DVI),
      if_neg (by decide : ¬ (58 : Int) = MOD),
      if_neg (by decide : ¬ (58 : Int) = INC),
      if_neg (by decide : ¬ (58 : Int) = DEC),
      if_neg (by decide : ¬ (58 : Int) = DVR),
      if_neg (by decide : ¬ (58 : Int) = IOR),
      if_neg (by decide : ¬ (58 : Int) = AND),
      if_neg (by decide : ¬ (58 : Int) = NOT),
      if_neg (by decide : ¬ (58 : Int) = UJP),
      if_neg (by decide : ¬ (58 : Int) = XJP),
      if_neg (by decide : ¬ (58 : Int) = FJP),
      if_neg (by decide : ¬ (58 : Int) = TJP),
      if_neg (by decide : ¬ (58 : Int) = FLT),
      if_neg (by decide : ¬ (58 : Int) = STP),
      if_neg (by decide : ¬ (58 : Int) = LDA),
      if_neg (by decide : ¬ (58 : Int) = LDC),
      if_neg (by decide : ¬ (58 : Int) = LDI),
      if_neg (by decide : ¬ ((58 : Int) = LVA ∨ (58 : Int) = LVB ∨ (58 : Int) = LVC ∨ (58 : Int) = LVI ∨ (58 : Int) = LVR)),
      if_pos (by decide : (58 : Int) = STI)]
  dsimp only [pop]
  rw [updateStore_ne s.dstore (s.sp - 1) Value.VUndef (s.sp - 1 - 1)
        (by omega : ¬ s.sp - 1 - 1 = s.sp - 1), ha]
  dsimp only
  rw [if_pos]
  rw [hv]
  exact checkDataAddress_low _ _ ha2

/-! ## C2: the compiled for-loop. -/
theorem c2f0 (lo hi : Int) : fetchWord (c2Bytecode lo hi) 0 = mkWord 2 0 8 := rfl
theorem c2f1 (lo hi : Int) : fetchWord (c2Bytecode lo hi) 1 = mkWord 49 0 5 := rfl
theorem c2f2 (lo hi : Int) : fetchWord (c2Bytecode lo hi) 2 = mkWord 50 3 0 := rfl
theorem c2f3 (lo hi : Int) : fetchWord (c2Bytecode lo hi) 3 = mkWord 58 0 0 := rfl
theorem c2f4 (lo hi : Int) : fetchWord (c2Bytecode lo hi) 4 = mkWord 55 0 5 := rfl
theorem c2f5 (lo hi : Int) : fetchWord (c2Bytecode lo hi) 5 = mkWord 50 3 1 := rfl
theorem c2f6 (lo hi : Int) : fetchWord (c2Bytecode lo hi) 6 = mkWord 7 3 0 := rfl
theorem c2f7 (lo hi : Int) : fetchWord (c2Bytecode lo hi) 7 = mkWord 41 0 21 := rfl
theorem c2f8 (lo hi : Int) : fetchWord (c2Bytecode lo hi) 8 = mkWord 49 0 6 := rfl
theorem c2f9 (lo hi : Int) : fetchWord (c2Bytecode lo hi) 9 = mkWord 55 0 6 := rfl
theorem c2f10 (lo hi : Int) : fetchWord (c2Bytecode lo hi) 10 = mkWord 50 3 2 := rfl
theorem c2f11 (lo hi : Int) : fetchWord (c2Bytecode lo hi) 11 = mkWord 11 0 0 := rfl
theorem c2f12 (lo hi : Int) : fetchWord (c2Bytecode lo hi) 12 = mkWord 58 3 0 := rfl
theorem c2f13 (lo hi : Int) : fetchWord (c2Bytecode lo hi) 13 = mkWord 49 0 7 := rfl
theorem c2f14 (lo hi : Int) : fetchWord (c2Bytecode lo hi) 14 = mkWord 55 0 5 := rfl
theorem c2f15 (lo hi : Int) : fetchWord (c2Bytecode lo hi) 15 = mkWord 58 3 0 := rfl
theorem c2f16 (lo hi : Int) : fetchWord (c2Bytecode lo hi) 16 = mkWord 49 0 5 := rfl
theorem c2f17 (lo hi : Int) : fetchWord (c2Bytecode lo hi) 17 = mkWord 55 0 5 := rfl
theorem c2f18 (lo hi : Int) : fetchWord (c2Bytecode lo hi) 18 = mkWord 19 3 0 := rfl
theorem c2f19 (lo hi : Int) : fetchWord (c2Bytecode lo hi) 19 = mkWord 58 0 0 := rfl
theorem c2f20 (lo hi : Int) : fetchWord (c2Bytecode lo hi) 20 = mkWord 38 0 4 := rfl
theorem c2f21 (lo hi : Int) : fetchWord (c2Bytecode lo hi) 21 = mkWord 48 0 0 := rfl
theorem c2d_2_0_8 :
    getOpcode (mkWord 2 0 8) = 2 ∧ getOperand1 (mkWord 2 0 8) = 0 ∧
    getOperand2 (mkWord 2 0 8) = 8 := by decide
theorem c2d_49_0_5 :
    getOpcode (mkWord 49 0 5) = 49 ∧ getOperand1 (mkWord 49 0 5) = 0 ∧
    getOperand2 (mkWord 49 0 5) = 5 := by decide
theorem c2d_50_3_0 :
    getOpcode (mkWord 50 3 0) = 50 ∧ getOperand1 (mkWord 50 3 0) = 3 ∧
    getOperand2 (mkWord 50 3 0) = 0 := by decide
theorem c2d_58_0_0 :
    getOpcode (mkWord 58 0 0) = 58 ∧ getOperand1 (mkWord 58 0 0) = 0 ∧
    getOperand2 (mkWord 58 0 0) = 0 := by decide
theorem c2d_55_0_5 :
    getOpcode (mkWord 55 0 5) = 55 ∧ getOperand1 (mkWord 55 0 5) = 0 ∧
    getOperand2 (mkWord 55 0 5) = 5 := by decide
theorem c2d_50_3_1 :
    getOpcode (mkWord 50 3 1) = 50 ∧ getOperand1 (mkWord 50 3 1) = 3 ∧
    getOperand2 (mkWord 50 3 1) = 1 := by decide
theorem c2d_7_3_0 :
    getOpcode (mkWord 7 3 0) = 7 ∧ getOperand1 (mkWord 7 3 0) = 3 ∧
    getOperand2 (mkWord 7 3 0) = 0 := by decide
theorem c2d_41_0_21 :
    getOpcode (mkWord 41 0 21) = 41 ∧ getOperand1 (mkWord 41 0 21) = 0 ∧
    getOperand2 (mkWord 41 0 21) = 21 := by decide
theorem c2d_49_0_6 :
    getOpcode (mkWord 49 0 6) = 49 ∧ getOperand1 (mkWord 49 0 6) = 0 ∧
    getOperand2 (mkWord 49 0 6) = 6 := by decide
theorem c2d_55_0_6 :
    getOpcode (mkWord 55 0 6) = 55 ∧ getOperand1 (mkWord 55 0 6) = 0 ∧
    getOperand2 (mkWord 55 0 6) = 6 := by decide
theorem c2d_50_3_2 :
    getOpcode (mkWord 50 3 2) = 50 ∧ getOperand1 (mkWord 50 3 2) = 3 ∧
    getOperand2 (mkWord 50 3 2) = 2 := by decide
theorem c2d_11_0_0 :
    getOpcode (mkWord 11 0 0) = 11 ∧ getOperand1 (mkWord 11 0 0) = 0 ∧
    getOperand2 (mkWord 11 0 0) = 0 := by decide
theorem c2d_58_3_0 :
    getOpcode (mkWord 58 3 0) = 58 ∧ getOperand1 (mkWord 58 3 0) = 3 ∧
    getOperand2 (mkWord 58 3 0) = 0 := by decide
theorem c2d_49_0_7 :
    getOpcode (mkWord 49 0 7) = 49 ∧ getOperand1 (mkWord 49 0 7) = 0 ∧
    getOperand2 (mkWord 49 0 7) = 7 := by decide
theorem c2d_19_3_0 :
    getOpcode (mkWord 19 3 0) = 19 ∧ getOperand1 (mkWord 19 3 0) = 3 ∧
    getOperand2 (mkWord 19 3 0) = 0 := by decide
theorem c2d_38_0_4 :
    getOpcode (mkWord 38 0 4) = 38 ∧ getOperand1 (mkWord 38 0 4) = 0 ∧
    getOperand2 (mkWord 38 0 4) = 4 := by decide
theorem c2d_48_0_0 :
    getOpcode (mkWord 48 0 0) = 48 ∧ getOperand1 (mkWord 48 0 0) = 0 ∧
    getOperand2 (mkWord 48 0 0) = 0 := by decide
theorem c2c0 (lo hi : Int) :
    (c2Bytecode lo hi).constants.getD 0 Value.VUndef = Value.VInt lo := rfl

theorem c2c1 (lo hi : Int) :
    (c2Bytecode lo hi).constants.getD 1 Value.VUndef = Value.VInt hi := rfl

theorem c2c2 (lo hi : Int) :
    (c2Bytecode lo hi).constants.getD 2 Value.VUndef = Value.VInt 1 := rfl

theorem c2tc (lo hi : Int) : (c2Bytecode lo hi).typedConstants = [] := rfl

theorem c2sa (lo hi : Int) : (c2Bytecode lo hi).startAddress = 0 := rfl

theorem run4u (bc : Bytecode) (s : MachineState) :
    run bc 4 s = (step bc s).bind (fun s1 => (step bc s1).bind (fun s2 => (step bc s2).bind (fun s3 => (step bc s3).bind (fun s4 => some s4)))) := rfl

theorem run5u (bc : Bytecode) (s : MachineState) :
    run bc 5 s = (step bc s).bind (fun s1 => (step bc s1).bind (fun s2 => (step bc s2).bind (fun s3 => (step bc s3).bind (fun s4 => (step bc s4).bind (fun s5 => some s5))))) := rfl

theorem run17u (bc : Bytecode) (s : MachineState) :
    run bc 17 s = (step bc s).bind (fun s1 => (step bc s1).bind (fun s2 => (step bc s2).bind (fun s3 => (step bc s3).bind (fun s4 => (step bc s4).bind (fun s5 => (step bc s5).bind (fun s6 => (step bc s6).bind (fun s7 => (step bc s7).bind (fun s8 => (step bc s8).bind (fun s9 => (step bc s9).bind (fun s10 => (step bc s10).bind (fun s11 => (step bc s11).bind (fun s12 => (step bc s12).bind (fun s13 => (step bc s13).bind (fun s14 => (step bc s14).bind (fun s15 => (step bc s15).bind (fun s16 => (step bc s16).bind (fun s17 => some s17))))))))))))))))) := rfl

set_option maxHeartbeats 1600000 in
/-- Four steps of frame entry and initialization: ENT clears the
    locals, then i := lo, reaching the top of the loop. -/
theorem c2_entry (lo hi : Int) :
    run (c2Bytecode lo hi) 4 (initialState (c2Bytecode lo hi)) = some (c2Loop lo 0 0) := by
  have h1 : step (c2Bytecode lo hi) (initialState (c2Bytecode lo hi)) = some (c2St 1 8 (0) (0) (0) Value.VUndef Value.VUndef Value.VUndef) := by
    rw [step_eq _ _ rfl, show (initialState (c2Bytecode lo hi)).pc = (0 : Int) from rfl, c2f0,
        execInstr_ENT0 (c2Bytecode lo hi) _ _ 8 c2d_2_0_8.1 c2d_2_0_8.2.1 c2d_2_0_8.2.2]
    refine congrArg some ?_
    apply MachineState.ext <;>
      first
      | rfl
      | (funext j
         dsimp only [c2St, c2Loop, c2Final, initialState, c2Bytecode, updateStore]
         try simp only [List.length_nil, show ((0 : Int) - 1) = -1 from rfl, show ((-1 : Int) - 1) = -2 from rfl]
         split_ifs <;> first | rfl | omega)
      | (dsimp only [c2St, c2Loop, c2Final, initialState, c2Bytecode]
         first | rfl | decide)
  have h2 : step (c2Bytecode lo hi) (c2St 1 8 (0) (0) (0) Value.VUndef Value.VUndef Value.VUndef) = some (c2St 2 9 (0) (0) (0) (Value.VInt (5)) Value.VUndef Value.VUndef) := by
    rw [step_eq _ _ rfl, show (c2St 1 8 (0) (0) (0) Value.VUndef Value.VUndef Value.VUndef).pc = (1 : Int) from rfl, c2f1,
        execInstr_LDA0 (c2Bytecode lo hi) _ _ 5 c2d_49_0_5.1 c2d_49_0_5.2.1 c2d_49_0_5.2.2]
    refine congrArg some ?_
    apply MachineState.ext <;>
      first
      | rfl
      | (funext j
         dsimp only [c2St, c2Loop, c2Final, initialState, c2Bytecode, updateStore]
         try simp only [List.length_nil, show ((8 : Int) - 1) = 7 from rfl, show ((7 : Int) - 1) = 6 from rfl]
         split_ifs <;> first | rfl | omega)
      | (dsimp only [c2St, c2Loop, c2Final, initialState, c2Bytecode]
         first | rfl | decide)
  have h3 : step (c2Bytecode lo hi) (c2St 2 9 (0) (0) (0) (Value.VInt (5)) Value.VUndef Value.VUndef) = some (c2St 3 10 (0) (0) (0) (Value.VInt (5)) (Value.VInt (lo)) Value.VUndef) := by
    rw [step_eq _ _ rfl, show (c2St 2 9 (0) (0) (0) (Value.VInt (5)) Value.VUndef Value.VUndef).pc = (2 : Int) from rfl, c2f2,
        execInstr_LDC_I (c2Bytecode lo hi) _ _ 0 (Value.VInt (lo)) c2d_50_3_0.1 c2d_50_3_0.2.1 c2d_50_3_0.2.2 rfl (vint_ne_vundef _)]
    refine congrArg some ?_
    apply MachineState.ext <;>
      first
      | rfl
      | (funext j
         dsimp only [c2St, c2Loop, c2Final, initialState, c2Bytecode, updateStore]
         try simp only [List.length_nil, show ((9 : Int) - 1) = 8 from rfl, show ((8 : Int) - 1) = 7 from rfl]
         split_ifs <;> first | rfl | omega)
      | (dsimp only [c2St, c2Loop, c2Final, initialState, c2Bytecode]
         first | rfl | decide)
  have h4 : step (c2Bytecode lo hi) (c2St 3 10 (0) (0) (0) (Value.VInt (5)) (Value.VInt (lo)) Value.VUndef) = some (c2Loop lo 0 0) := by
    rw [step_eq _ _ rfl, show (c2St 3 10 (0) (0) (0) (Value.VInt (5)) (Value.VInt (lo)) Value.VUndef).pc = (3 : Int) from rfl, c2f3,
        execInstr_STI (c2Bytecode lo hi) _ _ 5 (Value.VInt (lo)) c2d_58_0_0.1]
    · refine congrArg some ?_
      apply MachineState.ext <;>
        first
        | rfl
        | (funext j
           dsimp only [c2St, c2Loop, c2Final, initialState, c2Bytecode, updateStore]
           try simp only [List.length_nil, show ((10 : Int) - 1) = 9 from rfl, show ((9 : Int) - 1) = 8 from rfl]
           split_ifs <;> first | rfl | omega)
        | (dsimp only [c2St, c2Loop, c2Final, initialState, c2Bytecode]
           first | rfl | decide)
    · first | rfl | (dsimp only [c2St, c2Loop, c2Final, initialState, c2Bytecode]; first | rfl | decide) | exact vint_ne_vundef _
    · first | rfl | (dsimp only [c2St, c2Loop, c2Final, initialState, c2Bytecode]; first | rfl | decide) | exact vint_ne_vundef _
    · first | rfl | (dsimp only [c2St, c2Loop, c2Final, initialState, c2Bytecode]; first | rfl | decide) | exact vint_ne_vundef _
  rw [show run (c2Bytecode lo hi) 4 (initialState (c2Bytecode lo hi))
        = (step (c2Bytecode lo hi) (initialState (c2Bytecode lo hi))).bind (run (c2Bytecode lo hi) 3) from rfl]
  rw [h1, Option.some_bind]
  rw [show run (c2Bytecode lo hi) 3 (c2St 1 8 (0) (0) (0) Value.VUndef Value.VUndef Value.VUndef)
        = (step (c2Bytecode lo hi) (c2St 1 8 (0) (0) (0) Value.VUndef Value.VUndef Value.VUndef)).bind (run (c2Bytecode lo hi) 2) from rfl]
  rw [h2, Option.some_bind]
  rw [show run (c2Bytecode lo hi) 2 (c2St 2 9 (0) (0) (0) (Value.VInt (5)) Value.VUndef Value.VUndef)
        = (step (c2Bytecode lo hi) (c2St 2 9 (0) (0) (0) (Value.VInt (5)) Value.VUndef Value.VUndef)).bind (run (c2Bytecode lo hi) 1) from rfl]
  rw [h3, Option.some_bind]
  rw [show run (c2Bytecode lo hi) 1 (c2St 3 10 (0) (0) (0) (Value.VInt (5)) (Value.VInt (lo)) Value.VUndef)
        = (step (c2Bytecode lo hi) (c2St 3 10 (0) (0) (0) (Value.VInt (5)) (Value.VInt (lo)) Value.VUndef)).bind (run (c2Bytecode lo hi) 0) from rfl]
  rw [h4, Option.some_bind]
  rfl

set_option maxHeartbeats 3200000 in
/-- One full iteration of the loop body from the top of the loop, when
    the loop variable has not passed the bound: seventeen steps run the
    test, the body (counter increment and recording of i) and the
    increment, returning to the top with i bumped, the counter bumped and
    i recorded. -/
theorem c2_iter (lo hi k c r : Int) (hk : k ≤ hi) :
    run (c2Bytecode lo hi) 17 (c2Loop k c r) = some (c2Loop (k + 1) (c + 1) k) := by
  have hb : decide (hi < k) = false := decide_eq_false (by omega)
  have h1 : step (c2Bytecode lo hi) (c2Loop k c r) = some (c2St 5 9 (k) (c) (r) (Value.VInt (k)) Value.VUndef Value.VUndef) := by
    rw [step_eq _ _ rfl, show (c2Loop k c r).pc = (4 : Int) from rfl, c2f4,
        execInstr_LVI0 (c2Bytecode lo hi) _ _ 5 (Value.VInt (k)) c2d_55_0_5.1 c2d_55_0_5.2.1 c2d_55_0_5.2.2]
    · refine congrArg some ?_
      apply MachineState.ext <;>
        first
        | rfl
        | (funext j
           dsimp only [c2St, c2Loop, c2Final, initialState, c2Bytecode, updateStore]
           try simp only [List.length_nil, show ((8 : Int) - 1) = 7 from rfl, show ((7 : Int) - 1) = 6 from rfl]
           split_ifs <;> first | rfl | omega | (rw [hb]))
        | (dsimp only [c2St, c2Loop, c2Final, initialState, c2Bytecode]
           first | rfl | decide)
    · first | rfl | (dsimp only [c2St, c2Loop, c2Final, initialState, c2Bytecode]; first | rfl | decide) | exact vint_ne_vundef _
    · first | rfl | (dsimp only [c2St, c2Loop, c2Final, initialState, c2Bytecode]; first | rfl | decide) | exact vint_ne_vundef _
    · first | rfl | (dsimp only [c2St, c2Loop, c2Final, initialState, c2Bytecode]; first | rfl | decide) | exact vint_ne_vundef _
  have h2 : step (c2Bytecode lo hi) (c2St 5 9 (k) (c) (r) (Value.VInt (k)) Value.VUndef Value.VUndef) = some (c2St 6 10 (k) (c) (r) (Value.VInt (k)) (Value.VInt (hi)) Value.VUndef) := by
    rw [step_eq _ _ rfl, show (c2St 5 9 (k) (c) (r) (Value.VInt (k)) Value.VUndef Value.VUndef).pc = (5 : Int) from rfl, c2f5,
        execInstr_LDC_I (c2Bytecode lo hi) _ _ 1 (Value.VInt (hi)) c2d_50_3_1.1 c2d_50_3_1.2.1 c2d_50_3_1.2.2 rfl (vint_ne_vundef _)]
    refine congrArg some ?_
    apply MachineState.ext <;>
      first
      | rfl
      | (funext j
         dsimp only [c2St, c2Loop, c2Final, initialState, c2Bytecode, updateStore]
         try simp only [List.length_nil, show ((9 : Int) - 1) = 8 from rfl, show ((8 : Int) - 1) = 7 from rfl]
         split_ifs <;> first | rfl | omega | (rw [hb]))
      | (dsimp only [c2St, c2Loop, c2Final, initialState, c2Bytecode]
         first | rfl | decide)
  have h3 : step (c2Bytecode lo hi) (c2St 6 10 (k) (c) (r) (Value.VInt (k)) (Value.VInt (hi)) Value.VUndef) = some (c2St 7 9 (k) (c) (r) (Value.VBool false) Value.VUndef Value.VUndef) := by
    rw [step_eq _ _ rfl, show (c2St 6 10 (k) (c) (r) (Value.VInt (k)) (Value.VInt (hi)) Value.VUndef).pc = (6 : Int) from rfl, c2f6,
        execInstr_GRT (c2Bytecode lo hi) _ _ (k) (hi) c2d_7_3_0.1]
    · refine congrArg some ?_
      apply MachineState.ext <;>
        first
        | rfl
        | (funext j
           dsimp only [c2St, c2Loop, c2Final, initialState, c2Bytecode, updateStore]
           try simp only [List.length_nil, show ((10 : Int) - 1) = 9 from rfl, show ((9 : Int) - 1) = 8 from rfl]
           split_ifs <;> first | rfl | omega | (rw [hb]))
        | (dsimp only [c2St, c2Loop, c2Final, initialState, c2Bytecode]
           first | rfl | decide)
    · first | rfl | (dsimp only [c2St, c2Loop, c2Final, initialState, c2Bytecode]; first | rfl | decide) | exact vint_ne_vundef _
    · first | rfl | (dsimp only [c2St, c2Loop, c2Final, initialState, c2Bytecode]; first | rfl | decide) | exact vint_ne_vundef _
  have h4 : step (c2Bytecode lo hi) (c2St 7 9 (k) (c) (r) (Value.VBool false) Value.VUndef Value.VUndef) = some (c2St 8 8 (k) (c) (r) Value.VUndef Value.VUndef Value.VUndef) := by
    rw [step_eq _ _ rfl, show (c2St 7 9 (k) (c) (r) (Value.VBool false) Value.VUndef Value.VUndef).pc = (7 : Int) from rfl, c2f7,
        execInstr_TJP_false (c2Bytecode lo hi) _ _ c2d_41_0_21.1]
    · refine congrArg some ?_
      apply MachineState.ext <;>
        first
        | rfl
        | (funext j
           dsimp only [c2St, c2Loop, c2Final, initialState, c2Bytecode, updateStore]
           try simp only [List.length_nil, show ((9 : Int) - 1) = 8 from rfl, show ((8 : Int) - 1) = 7 from rfl]
           split_ifs <;> first | rfl | omega | (rw [hb]))
        | (dsimp only [c2St, c2Loop, c2Final, initialState, c2Bytecode]
           first | rfl | decide)
    · first | rfl | (dsimp only [c2St, c2Loop, c2Final, initialState, c2Bytecode]; first | rfl | decide) | exact vint_ne_vundef _
  have h5 : step (c2Bytecode lo hi) (c2St 8 8 (k) (c) (r) Value.VUndef Value.VUndef Value.VUndef) = some (c2St 9 9 (k) (c) (r) (Value.VInt (6)) Value.VUndef Value.VUndef) := by
    rw [step_eq _ _ rfl, show (c2St 8 8 (k) (c) (r) Value.VUndef Value.VUndef Value.VUndef).pc = (8 : Int) from rfl, c2f8,
        execInstr_LDA0 (c2Bytecode lo hi) _ _ 6 c2d_49_0_6.1 c2d_49_0_6.2.1 c2d_49_0_6.2.2]
    refine congrArg some ?_
    apply MachineState.ext <;>
      first
      | rfl
      | (funext j
         dsimp only [c2St, c2Loop, c2Final, initialState, c2Bytecode, updateStore]
         try simp only [List.length_nil, show ((8 : Int) - 1) = 7 from rfl, show ((7 : Int) - 1) = 6 from rfl]
         split_ifs <;> first | rfl | omega | (rw [hb]))
      | (dsimp only [c2St, c2Loop, c2Final, initialState, c2Bytecode]
         first | rfl | decide)
  have h6 : step (c2Bytecode lo hi) (c2St 9 9 (k) (c) (r) (Value.VInt (6)) Value.VUndef Value.VUndef) = some (c2St 10 10 (k) (c) (r) (Value.VInt (6)) (Value.VInt (c)) Value.VUndef) := by
    rw [step_eq _ _ rfl, show (c2St 9 9 (k) (c) (r) (Value.VInt (6)) Value.VUndef Value.VUndef).pc = (9 : Int) from rfl, c2f9,
        execInstr_LVI0 (c2Bytecode lo hi) _ _ 6 (Value.VInt (c)) c2d_55_0_6.1 c2d_55_0_6.2.1 c2d_55_0_6.2.2]
    · refine congrArg some ?_
      apply MachineState.ext <;>
        first
        | rfl
        | (funext j
           dsimp only [c2St, c2Loop, c2Final, initialState, c2Bytecode, updateStore]
           try simp only [List.length_nil, show ((9 : Int) - 1) = 8 from rfl, show ((8 : Int) - 1) = 7 from rfl]
           split_ifs <;> first | rfl | omega | (rw [hb]))
        | (dsimp only [c2St, c2Loop, c2Final, initialState, c2Bytecode]
           first | rfl | decide)
    · first | rfl | (dsimp only [c2St, c2Loop, c2Final, initialState, c2Bytecode]; first | rfl | decide) | exact vint_ne_vundef _
    · first | rfl | (dsimp only [c2St, c2Loop, c2Final, initialState, c2Bytecode]; first | rfl | decide) | exact vint_ne_vundef _
    · first | rfl | (dsimp only [c2St, c2Loop, c2Final, initialState, c2Bytecode]; first | rfl | decide) | exact vint_ne_vundef _
  have h7 : step (c2Bytecode lo hi) (c2St 10 10 (k) (c) (r) (Value.VInt (6)) (Value.VInt (c)) Value.VUndef) = some (c2St 11 11 (k) (c) (r) (Value.VInt (6)) (Value.VInt (c)) (Value.VInt (1))) := by
    rw [step_eq _ _ rfl, show (c2St 10 10 (k) (c) (r) (Value.VInt (6)) (Value.VInt (c)) Value.VUndef).pc = (10 : Int) from rfl, c2f10,
        execInstr_LDC_I (c2Bytecode lo hi) _ _ 2 (Value.VInt (1)) c2d_50_3_2.1 c2d_50_3_2.2.1 c2d_50_3_2.2.2 rfl (vint_ne_vundef _)]
    refine congrArg some ?_
    apply MachineState.ext <;>
      first
      | rfl
      | (funext j
         dsimp only [c2St, c2Loop, c2Final, initialState, c2Bytecode, updateStore]
         try simp only [List.length_nil, show ((10 : Int) - 1) = 9 from rfl, show ((9 : Int) - 1) = 8 from rfl]
         split_ifs <;> first | rfl | omega | (rw [hb]))
      | (dsimp only [c2St, c2Loop, c2Final, initialState, c2Bytecode]
         first | rfl | decide)
  have h8 : step (c2Bytecode lo hi) (c2St 11 11 (k) (c) (r) (Value.VInt (6)) (Value.VInt (c)) (Value.VInt (1))) = some (c2St 12 10 (k) (c) (r) (Value.VInt (6)) (Value.VInt (c + 1)) Value.VUndef) := by
    rw [step_eq _ _ rfl, show (c2St 11 11 (k) (c) (r) (Value.VInt (6)) (Value.VInt (c)) (Value.VInt (1))).pc = (11 : Int) from rfl, c2f11,
        execInstr_ADI (c2Bytecode lo hi) _ _ (c) (1) c2d_11_0_0.1]
    · refine congrArg some ?_
      apply MachineState.ext <;>
        first
        | rfl
        | (funext j
           dsimp only [c2St, c2Loop, c2Final, initialState, c2Bytecode, updateStore]
           try simp only [List.length_nil, show ((11 : Int) - 1) = 10 from rfl, show ((10 : Int) - 1) = 9 from rfl]
           split_ifs <;> first | rfl | omega | (rw [hb]))
        | (dsimp only [c2St, c2Loop, c2Final, initialState, c2Bytecode]
           first | rfl | decide)
    · first | rfl | (dsimp only [c2St, c2Loop, c2Final, initialState, c2Bytecode]; first | rfl | decide) | exact vint_ne_vundef _
    · first | rfl | (dsimp only [c2St, c2Loop, c2Final, initialState, c2Bytecode]; first | rfl | decide) | exact vint_ne_vundef _
  have h9 : step (c2Bytecode lo hi) (c2St 12 10 (k) (c) (r) (Value.VInt (6)) (Value.VInt (c + 1)) Value.VUndef) = some (c2St 13 8 (k) (c + 1) (r) Value.VUndef Value.VUndef Value.VUndef) := by
    rw [step_eq _ _ rfl, show (c2St 12 10 (k) (c) (r) (Value.VInt (6)) (Value.VInt (c + 1)) Value.VUndef).pc = (12 : Int) from rfl, c2f12,
        execInstr_STI (c2Bytecode lo hi) _ _ 6 (Value.VInt (c + 1)) c2d_58_3_0.1]
    · refine congrArg some ?_
      apply MachineState.ext <;>
        first
        | rfl
        | (funext j
           dsimp only [c2St, c2Loop, c2Final, initialState, c2Bytecode, updateStore]
           try simp only [List.length_nil, show ((10 : Int) - 1) = 9 from rfl, show ((9 : Int) - 1) = 8 from rfl]
           split_ifs <;> first | rfl | omega | (rw [hb]))
        | (dsimp only [c2St, c2Loop, c2Final, initialState, c2Bytecode]
           first | rfl | decide)
    · first | rfl | (dsimp only [c2St, c2Loop, c2Final, initialState, c2Bytecode]; first | rfl | decide) | exact vint_ne_vundef _
    · first | rfl | (dsimp only [c2St, c2Loop, c2Final, initialState, c2Bytecode]; first | rfl | decide) | exact vint_ne_vundef _
    · first | rfl | (dsimp only [c2St, c2Loop, c2Final, initialState, c2Bytecode]; first | rfl | decide) | exact vint_ne_vundef _
  have h10 : step (c2Bytecode lo hi) (c2St 13 8 (k) (c + 1) (r) Value.VUndef Value.VUndef Value.VUndef) = some (c2St 14 9 (k) (c + 1) (r) (Value.VInt (7)) Value.VUndef Value.VUndef) := by
    rw [step_eq _ _ rfl, show (c2St 13 8 (k) (c + 1) (r) Value.VUndef Value.VUndef Value.VUndef).pc = (13 : Int) from rfl, c2f13,
        execInstr_LDA0 (c2Bytecode lo hi) _ _ 7 c2d_49_0_7.1 c2d_49_0_7.2.1 c2d_49_0_7.2.2]
    refine congrArg some ?_
    apply MachineState.ext <;>
      first
      | rfl
      | (funext j
         dsimp only [c2St, c2Loop, c2Final, initialState, c2Bytecode, updateStore]
         try simp only [List.length_nil, show ((8 : Int) - 1) = 7 from rfl, show ((7 : Int) - 1) = 6 from rfl]
         split_ifs <;> first | rfl | omega | (rw [hb]))
      | (dsimp only [c2St, c2Loop, c2Final, initialState, c2Bytecode]
         first | rfl | decide)
  have h11 : step (c2Bytecode lo hi) (c2St 14 9 (k) (c + 1) (r) (Value.VInt (7)) Value.VUndef Value.VUndef) = some (c2St 15 10 (k) (c + 1) (r) (Value.VInt (7)) (Value.VInt (k)) Value.VUndef) := by
    rw [step_eq _ _ rfl, show (c2St 14 9 (k) (c + 1) (r) (Value.VInt (7)) Value.VUndef Value.VUndef).pc = (14 : Int) from rfl, c2f14,
        execInstr_LVI0 (c2Bytecode lo hi) _ _ 5 (Value.VInt (k)) c2d_55_0_5.1 c2d_55_0_5.2.1 c2d_55_0_5.2.2]
    · refine congrArg some ?_
      apply MachineState.ext <;>
        first
        | rfl
        | (funext j
           dsimp only [c2St, c2Loop, c2Final, initialState, c2Bytecode, updateStore]
           try simp only [List.length_nil, show ((9 : Int) - 1) = 8 from rfl, show ((8 : Int) - 1) = 7 from rfl]
           split_ifs <;> first | rfl | omega | (rw [hb]))
        | (dsimp only [c2St, c2Loop, c2Final, initialState, c2Bytecode]
           first | rfl | decide)
    · first | rfl | (dsimp only [c2St, c2Loop, c2Final, initialState, c2Bytecode]; first | rfl | decide) | exact vint_ne_vundef _
    · first | rfl | (dsimp only [c2St, c2Loop, c2Final, initialState, c2Bytecode]; first | rfl | decide) | exact vint_ne_vundef _
    · first | rfl | (dsimp only [c2St, c2Loop, c2Final, initialState, c2Bytecode]; first | rfl | decide) | exact vint_ne_vundef _
  have h12 : step (c2Bytecode lo hi) (c2St 15 10 (k) (c + 1) (r) (Value.VInt (7)) (Value.VInt (k)) Value.VUndef) = some (c2St 16 8 (k) (c + 1) (k) Value.VUndef Value.VUndef Value.VUndef) := by
    rw [step_eq _ _ rfl, show (c2St 15 10 (k) (c + 1) (r) (Value.VInt (7)) (Value.VInt (k)) Value.VUndef).pc = (15 : Int) from rfl, c2f15,
        execInstr_STI (c2Bytecode lo hi) _ _ 7 (Value.VInt (k)) c2d_58_3_0.1]
    · refine congrArg some ?_
      apply MachineState.ext <;>
        first
        | rfl
        | (funext j
           dsimp only [c2St, c2Loop, c2Final, initialState, c2Bytecode, updateStore]
           try simp only [List.length_nil, show ((10 : Int) - 1) = 9 from rfl, show ((9 : Int) - 1) = 8 from rfl]
           split_ifs <;> first | rfl | omega | (rw [hb]))
        | (dsimp only [c2St, c2Loop, c2Final, initialState, c2Bytecode]
           first | rfl | decide)
    · first | rfl | (dsimp only [c2St, c2Loop, c2Final, initialState, c2Bytecode]; first | rfl | decide) | exact vint_ne_vundef _
    · first | rfl | (dsimp only [c2St, c2Loop, c2Final, initialState, c2Bytecode]; first | rfl | decide) | exact vint_ne_vundef _
    · first | rfl | (dsimp only [c2St, c2Loop, c2Final, initialState, c2Bytecode]; first | rfl | decide) | exact vint_ne_vundef _
  have h13 : step (c2Bytecode lo hi) (c2St 16 8 (k) (c + 1) (k) Value.VUndef Value.VUndef Value.VUndef) = some (c2St 17 9 (k) (c + 1) (k) (Value.VInt (5)) Value.VUndef Value.VUndef) := by
    rw [step_eq _ _ rfl, show (c2St 16 8 (k) (c + 1) (k) Value.VUndef Value.VUndef Value.VUndef).pc = (16 : Int) from rfl, c2f16,
        execInstr_LDA0 (c2Bytecode lo hi) _ _ 5 c2d_49_0_5.1 c2d_49_0_5.2.1 c2d_49_0_5.2.2]
    refine congrArg some ?_
    apply MachineState.ext <;>
      first
      | rfl
      | (funext j
         dsimp only [c2St, c2Loop, c2Final, initialState, c2Bytecode, updateStore]
         try simp only [List.length_nil, show ((8 : Int) - 1) = 7 from rfl, show ((7 : Int) - 1) = 6 from rfl]
         split_ifs <;> first | rfl | omega | (rw [hb]))
      | (dsimp only [c2St, c2Loop, c2Final, initialState, c2Bytecode]
         first | rfl | decide)
  have h14 : step (c2Bytecode lo hi) (c2St 17 9 (k) (c + 1) (k) (Value.VInt (5)) Value.VUndef Value.VUndef) = some (c2St 18 10 (k) (c + 1) (k) (Value.VInt (5)) (Value.VInt (k)) Value.VUndef) := by
    rw [step_eq _ _ rfl, show (c2St 17 9 (k) (c + 1) (k) (Value.VInt (5)) Value.VUndef Value.VUndef).pc = (17 : Int) from rfl, c2f17,
        execInstr_LVI0 (c2Bytecode lo hi) _ _ 5 (Value.VInt (k)) c2d_55_0_5.1 c2d_55_0_5.2.1 c2d_55_0_5.2.2]
    · refine congrArg some ?_
      apply MachineState.ext <;>
        first
        | rfl
        | (funext j
           dsimp only [c2St, c2Loop, c2Final, initialState, c2Bytecode, updateStore]
           try simp only [List.length_nil, show ((9 : Int) - 1) = 8 from rfl, show ((8 : Int) - 1) = 7 from rfl]
           split_ifs <;> first | rfl | omega | (rw [hb]))
        | (dsimp only [c2St, c2Loop, c2Final, initialState, c2Bytecode]
           first | rfl | decide)
    · first | rfl | (dsimp only [c2St, c2Loop, c2Final, initialState, c2Bytecode]; first | rfl | decide) | exact vint_ne_vundef _
    · first | rfl | (dsimp only [c2St, c2Loop, c2Final, initialState, c2Bytecode]; first | rfl | decide) | exact vint_ne_vundef _
    · first | rfl | (dsimp only [c2St, c2Loop, c2Final, initialState, c2Bytecode]; first | rfl | decide) | exact vint_ne_vundef _
  have h15 : step (c2Bytecode lo hi) (c2St 18 10 (k) (c + 1) (k) (Value.VInt (5)) (Value.VInt (k)) Value.VUndef) = some (c2St 19 10 (k) (c + 1) (k) (Value.VInt (5)) (Value.VInt (k + 1)) Value.VUndef) := by
    rw [step_eq _ _ rfl, show (c2St 18 10 (k) (c + 1) (k) (Value.VInt (5)) (Value.VInt (k)) Value.VUndef).pc = (18 : Int) from rfl, c2f18,
        execInstr_INC (c2Bytecode lo hi) _ _ (k) c2d_19_3_0.1]
    · refine congrArg some ?_
      apply MachineState.ext <;>
        first
        | rfl
        | (funext j
           dsimp only [c2St, c2Loop, c2Final, initialState, c2Bytecode, updateStore]
           try simp only [List.length_nil, show ((10 : Int) - 1) = 9 from rfl, show ((9 : Int) - 1) = 8 from rfl]
           split_ifs <;> first | rfl | omega | (rw [hb]))
        | (dsimp only [c2St, c2Loop, c2Final, initialState, c2Bytecode]
           first | rfl | decide)
    · first | rfl | (dsimp only [c2St, c2Loop, c2Final, initialState, c2Bytecode]; first | rfl | decide) | exact vint_ne_vundef _
  have h16 : step (c2Bytecode lo hi) (c2St 19 10 (k) (c + 1) (k) (Value.VInt (5)) (Value.VInt (k + 1)) Value.VUndef) = some (c2St 20 8 (k + 1) (c + 1) (k) Value.VUndef Value.VUndef Value.VUndef) := by
    rw [step_eq _ _ rfl, show (c2St 19 10 (k) (c + 1) (k) (Value.VInt (5)) (Value.VInt (k + 1)) Value.VUndef).pc = (19 : Int) from rfl, c2f19,
        execInstr_STI (c2Bytecode lo hi) _ _ 5 (Value.VInt (k + 1)) c2d_58_0_0.1]
    · refine congrArg some ?_
      apply MachineState.ext <;>
        first
        | rfl
        | (funext j
           dsimp only [c2St, c2Loop, c2Final, initialState, c2Bytecode, updateStore]
           try simp only [List.length_nil, show ((10 : Int) - 1) = 9 from rfl, show ((9 : Int) - 1) = 8 from rfl]
           split_ifs <;> first | rfl | omega | (rw [hb]))
        | (dsimp only [c2St, c2Loop, c2Final, initialState, c2Bytecode]
           first | rfl | decide)
    · first | rfl | (dsimp only [c2St, c2Loop, c2Final, initialState, c2Bytecode]; first | rfl | decide) | exact vint_ne_vundef _
    · first | rfl | (dsimp only [c2St, c2Loop, c2Final, initialState, c2Bytecode]; first | rfl | decide) | exact vint_ne_vundef _
    · first | rfl | (dsimp only [c2St, c2Loop, c2Final, initialState, c2Bytecode]; first | rfl | decide) | exact vint_ne_vundef _
  have h17 : step (c2Bytecode lo hi) (c2St 20 8 (k + 1) (c + 1) (k) Value.VUndef Value.VUndef Value.VUndef) = some (c2Loop (k + 1) (c + 1) k) := by
    rw [step_eq _ _ rfl, show (c2St 20 8 (k + 1) (c + 1) (k) Value.VUndef Value.VUndef Value.VUndef).pc = (20 : Int) from rfl, c2f20,
        execInstr_UJP (c2Bytecode lo hi) _ _ 4 c2d_38_0_4.1 c2d_38_0_4.2.2]
    refine congrArg some ?_
    apply MachineState.ext <;>
      first
      | rfl
      | (funext j
         dsimp only [c2St, c2Loop, c2Final, initialState, c2Bytecode, updateStore]
         try simp only [List.length_nil, show ((8 : Int) - 1) = 7 from rfl, show ((7 : Int) - 1) = 6 from rfl]
         split_ifs <;> first | rfl | omega | (rw [hb]))
      | (dsimp only [c2St, c2Loop, c2Final, initialState, c2Bytecode]
         first | rfl | decide)
  rw [show run (c2Bytecode lo hi) 17 (c2Loop k c r)
        = (step (c2Bytecode lo hi) (c2Loop k c r)).bind (run (c2Bytecode lo hi) 16) from rfl]
  rw [h1, Option.some_bind]
  rw [show run (c2Bytecode lo hi) 16 (c2St 5 9 (k) (c) (r) (Value.VInt (k)) Value.VUndef Value.VUndef)
        = (step (c2Bytecode lo hi) (c2St 5 9 (k) (c) (r) (Value.VInt (k)) Value.VUndef Value.VUndef)).bind (run (c2Bytecode lo hi) 15) from rfl]
  rw [h2, Option.some_bind]
  rw [show run (c2Bytecode lo hi) 15 (c2St 6 10 (k) (c) (r) (Value.VInt (k)) (Value.VInt (hi)) Value.VUndef)
        = (step (c2Bytecode lo hi) (c2St 6 10 (k) (c) (r) (Value.VInt (k)) (Value.VInt (hi)) Value.VUndef)).bind (run (c2Bytecode lo hi) 14) from rfl]
  rw [h3, Option.some_bind]
  rw [show run (c2Bytecode lo hi) 14 (c2St 7 9 (k) (c) (r) (Value.VBool false) Value.VUndef Value.VUndef)
        = (step (c2Bytecode lo hi) (c2St 7 9 (k) (c) (r) (Value.VBool false) Value.VUndef Value.VUndef)).bind (run (c2Bytecode lo hi) 13) from rfl]
  rw [h4, Option.some_bind]
  rw [show run (c2Bytecode lo hi) 13 (c2St 8 8 (k) (c) (r) Value.VUndef Value.VUndef Value.VUndef)
        = (step (c2Bytecode lo hi) (c2St 8 8 (k) (c) (r) Value.VUndef Value.VUndef Value.VUndef)).bind (run (c2Bytecode lo hi) 12) from rfl]
  rw [h5, Option.some_bind]
  rw [show run (c2Bytecode lo hi) 12 (c2St 9 9 (k) (c) (r) (Value.VInt (6)) Value.VUndef Value.VUndef)
        = (step (c2Bytecode lo hi) (c2St 9 9 (k) (c) (r) (Value.VInt (6)) Value.VUndef Value.VUndef)).bind (run (c2Bytecode lo hi) 11) from rfl]
  rw [h6, Option.some_bind]
  rw [show run (c2Bytecode lo hi) 11 (c2St 10 10 (k) (c) (r) (Value.VInt (6)) (Value.VInt (c)) Value.VUndef)
        = (step (c2Bytecode lo hi) (c2St 10 10 (k) (c) (r) (Value.VInt (6)) (Value.VInt (c)) Value.VUndef)).bind (run (c2Bytecode lo hi) 10) from rfl]
  rw [h7, Option.some_bind]
  rw [show run (c2Bytecode lo hi) 10 (c2St 11 11 (k) (c) (r) (Value.VInt (6)) (Value.VInt (c)) (Value.VInt (1)))
        = (step (c2Bytecode lo hi) (c2St 11 11 (k) (c) (r) (Value.VInt (6)) (Value.VInt (c)) (Value.VInt (1)))).bind (run (c2Bytecode lo hi) 9) from rfl]
  rw [h8, Option.some_bind]
  rw [show run (c2Bytecode lo hi) 9 (c2St 12 10 (k) (c) (r) (Value.VInt (6)) (Value.VInt (c + 1)) Value.VUndef)
        = (step (c2Bytecode lo hi) (c2St 12 10 (k) (c) (r) (Value.VInt (6)) (Value.VInt (c + 1)) Value.VUndef)).bind (run (c2Bytecode lo hi) 8) from rfl]
  rw [h9, Option.some_bind]
  rw [show run (c2Bytecode lo hi) 8 (c2St 13 8 (k) (c + 1) (r) Value.VUndef Value.VUndef Value.VUndef)
        = (step (c2Bytecode lo hi) (c2St 13 8 (k) (c + 1) (r) Value.VUndef Value.VUndef Value.VUndef)).bind (run (c2Bytecode lo hi) 7) from rfl]
  rw [h10, Option.some_bind]
  rw [show run (c2Bytecode lo hi) 7 (c2St 14 9 (k) (c + 1) (r) (Value.VInt (7)) Value.VUndef Value.VUndef)
        = (step (c2Bytecode lo hi) (c2St 14 9 (k) (c + 1) (r) (Value.VInt (7)) Value.VUndef Value.VUndef)).bind (run (c2Bytecode lo hi) 6) from rfl]
  rw [h11, Option.some_bind]
  rw [show run (c2Bytecode lo hi) 6 (c2St 15 10 (k) (c + 1) (r) (Value.VInt (7)) (Value.VInt (k)) Value.VUndef)
        = (step (c2Bytecode lo hi) (c2St 15 10 (k) (c + 1) (r) (Value.VInt (7)) (Value.VInt (k)) Value.VUndef)).bind (run (c2Bytecode lo hi) 5) from rfl]
  rw [h12, Option.some_bind]
  rw [show run (c2Bytecode lo hi) 5 (c2St 16 8 (k) (c + 1) (k) Value.VUndef Value.VUndef Value.VUndef)
        = (step (c2Bytecode lo hi) (c2St 16 8 (k) (c + 1) (k) Value.VUndef Value.VUndef Value.VUndef)).bind (run (c2Bytecode lo hi) 4) from rfl]
  rw [h13, Option.some_bind]
  rw [show run (c2Bytecode lo hi) 4 (c2St 17 9 (k) (c + 1) (k) (Value.VInt (5)) Value.VUndef Value.VUndef)
        = (step (c2Bytecode lo hi) (c2St 17 9 (k) (c + 1) (k) (Value.VInt (5)) Value.VUndef Value.VUndef)).bind (run (c2Bytecode lo hi) 3) from rfl]
  rw [h14, Option.some_bind]
  rw [show run (c2Bytecode lo hi) 3 (c2St 18 10 (k) (c + 1) (k) (Value.VInt (5)) (Value.VInt (k)) Value.VUndef)
        = (step (c2Bytecode lo hi) (c2St 18 10 (k) (c + 1) (k) (Value.VInt (5)) (Value.VInt (k)) Value.VUndef)).bind (run (c2Bytecode lo hi) 2) from rfl]
  rw [h15, Option.some_bind]
  rw [show run (c2Bytecode lo hi) 2 (c2St 19 10 (k) (c + 1) (k) (Value.VInt (5)) (Value.VInt (k + 1)) Value.VUndef)
        = (step (c2Bytecode lo hi) (c2St 19 10 (k) (c + 1) (k) (Value.VInt (5)) (Value.VInt (k + 1)) Value.VUndef)).bind (run (c2Bytecode lo hi) 1) from rfl]
  rw [h16, Option.some_bind]
  rw [show run (c2Bytecode lo hi) 1 (c2St 20 8 (k + 1) (c + 1) (k) Value.VUndef Value.VUndef Value.VUndef)
        = (step (c2Bytecode lo hi) (c2St 20 8 (k + 1) (c + 1) (k) Value.VUndef Value.VUndef Value.VUndef)).bind (run (c2Bytecode lo hi) 0) from rfl]
  rw [h17, Option.some_bind]
  rfl

set_option maxHeartbeats 1600000 in
/-- Five steps from the top of the loop when the variable has passed the
    bound: the test succeeds, TJP jumps to the end and STP stops. -/
theorem c2_exit (lo hi k c r : Int) (hk : hi < k) :
    run (c2Bytecode lo hi) 5 (c2Loop k c r) = some (c2Final k c r) := by
  have hb : decide (hi < k) = true := decide_eq_true hk
  have h1 : step (c2Bytecode lo hi) (c2Loop k c r) = some (c2St 5 9 (k) (c) (r) (Value.VInt (k)) Value.VUndef Value.VUndef) := by
    rw [step_eq _ _ rfl, show (c2Loop k c r).pc = (4 : Int) from rfl, c2f4,
        execInstr_LVI0 (c2Bytecode lo hi) _ _ 5 (Value.VInt (k)) c2d_55_0_5.1 c2d_55_0_5.2.1 c2d_55_0_5.2.2]
    · refine congrArg some ?_
      apply MachineState.ext <;>
        first
        | rfl
        | (funext j
           dsimp only [c2St, c2Loop, c2Final, initialState, c2Bytecode, updateStore]
           try simp only [List.length_nil, show ((8 : Int) - 1) = 7 from rfl, show ((7 : Int) - 1) = 6 from rfl]
           split_ifs <;> first | rfl | omega | (rw [hb]))
        | (dsimp only [c2St, c2Loop, c2Final, initialState, c2Bytecode]
           first | rfl | decide)
    · first | rfl | (dsimp only [c2St, c2Loop, c2Final, initialState, c2Bytecode]; first | rfl | decide) | exact vint_ne_vundef _
    · first | rfl | (dsimp only [c2St, c2Loop, c2Final, initialState, c2Bytecode]; first | rfl | decide) | exact vint_ne_vundef _
    · first | rfl | (dsimp only [c2St, c2Loop, c2Final, initialState, c2Bytecode]; first | rfl | decide) | exact vint_ne_vundef _
  have h2 : step (c2Bytecode lo hi) (c2St 5 9 (k) (c) (r) (Value.VInt (k)) Value.VUndef Value.VUndef) = some (c2St 6 10 (k) (c) (r) (Value.VInt (k)) (Value.VInt (hi)) Value.VUndef) := by
    rw [step_eq _ _ rfl, show (c2St 5 9 (k) (c) (r) (Value.VInt (k)) Value.VUndef Value.VUndef).pc = (5 : Int) from rfl, c2f5,
        execInstr_LDC_I (c2Bytecode lo hi) _ _ 1 (Value.VInt (hi)) c2d_50_3_1.1 c2d_50_3_1.2.1 c2d_50_3_1.2.2 rfl (vint_ne_vundef _)]
    refine congrArg some ?_
    apply MachineState.ext <;>
      first
      | rfl
      | (funext j
         dsimp only [c2St, c2Loop, c2Final, initialState, c2Bytecode, updateStore]
         try simp only [List.length_nil, show ((9 : Int) - 1) = 8 from rfl, show ((8 : Int) - 1) = 7 from rfl]
         split_ifs <;> first | rfl | omega | (rw [hb]))
      | (dsimp only [c2St, c2Loop, c2Final, initialState, c2Bytecode]
         first | rfl | decide)
  have h3 : step (c2Bytecode lo hi) (c2St 6 10 (k) (c) (r) (Value.VInt (k)) (Value.VInt (hi)) Value.VUndef) = some (c2St 7 9 (k) (c) (r) (Value.VBool true) Value.VUndef Value.VUndef) := by
    rw [step_eq _ _ rfl, show (c2St 6 10 (k) (c) (r) (Value.VInt (k)) (Value.VInt (hi)) Value.VUndef).pc = (6 : Int) from rfl, c2f6,
        execInstr_GRT (c2Bytecode lo hi) _ _ (k) (hi) c2d_7_3_0.1]
    · refine congrArg some ?_
      apply MachineState.ext <;>
        first
        | rfl
        | (funext j
           dsimp only [c2St, c2Loop, c2Final, initialState, c2Bytecode, updateStore]
           try simp only [List.length_nil, show ((10 : Int) - 1) = 9 from rfl, show ((9 : Int) - 1) = 8 from rfl]
           split_ifs <;> first | rfl | omega | (rw [hb]))
        | (dsimp only [c2St, c2Loop, c2Final, initialState, c2Bytecode]
           first | rfl | decide)
    · first | rfl | (dsimp only [c2St, c2Loop, c2Final, initialState, c2Bytecode]; first | rfl | decide) | exact vint_ne_vundef _
    · first | rfl | (dsimp only [c2St, c2Loop, c2Final, initialState, c2Bytecode]; first | rfl | decide) | exact vint_ne_vundef _
  have h4 : step (c2Bytecode lo hi) (c2St 7 9 (k) (c) (r) (Value.VBool true) Value.VUndef Value.VUndef) = some (c2St 21 8 (k) (c) (r) Value.VUndef Value.VUndef Value.VUndef) := by
    rw [step_eq _ _ rfl, show (c2St 7 9 (k) (c) (r) (Value.VBool true) Value.VUndef Value.VUndef).pc = (7 : Int) from rfl, c2f7,
        execInstr_TJP_true (c2Bytecode lo hi) _ _ 21 c2d_41_0_21.1 c2d_41_0_21.2.2]
    · refine congrArg some ?_
      apply MachineState.ext <;>
        first
        | rfl
        | (funext j
           dsimp only [c2St, c2Loop, c2Final, initialState, c2Bytecode, updateStore]
           try simp only [List.length_nil, show ((9 : Int) - 1) = 8 from rfl, show ((8 : Int) - 1) = 7 from rfl]
           split_ifs <;> first | rfl | omega | (rw [hb]))
        | (dsimp only [c2St, c2Loop, c2Final, initialState, c2Bytecode]
           first | rfl | decide)
    · first | rfl | (dsimp only [c2St, c2Loop, c2Final, initialState, c2Bytecode]; first | rfl | decide) | exact vint_ne_vundef _
  have h5 : step (c2Bytecode lo hi) (c2St 21 8 (k) (c) (r) Value.VUndef Value.VUndef Value.VUndef) = some (c2Final k c r) := by
    rw [step_eq _ _ rfl, show (c2St 21 8 (k) (c) (r) Value.VUndef Value.VUndef Value.VUndef).pc = (21 : Int) from rfl, c2f21,
        execInstr_STP (c2Bytecode lo hi) _ _ c2d_48_0_0.1]
    refine congrArg some ?_
    apply MachineState.ext <;>
      first
      | rfl
      | (funext j
         dsimp only [c2St, c2Loop, c2Final, initialState, c2Bytecode, updateStore]
         try simp only [List.length_nil, show ((8 : Int) - 1) = 7 from rfl, show ((7 : Int) - 1) = 6 from rfl]
         split_ifs <;> first | rfl | omega | (rw [hb]))
      | (dsimp only [c2St, c2Loop, c2Final, initialState, c2Bytecode]
         first | rfl | decide)
  rw [show run (c2Bytecode lo hi) 5 (c2Loop k c r)
        = (step (c2Bytecode lo hi) (c2Loop k c r)).bind (run (c2Bytecode lo hi) 4) from rfl]
  rw [h1, Option.some_bind]
  rw [show run (c2Bytecode lo hi) 4 (c2St 5 9 (k) (c) (r) (Value.VInt (k)) Value.VUndef Value.VUndef)
        = (step (c2Bytecode lo hi) (c2St 5 9 (k) (c) (r) (Value.VInt (k)) Value.VUndef Value.VUndef)).bind (run (c2Bytecode lo hi) 3) from rfl]
  rw [h2, Option.some_bind]
  rw [show run (c2Bytecode lo hi) 3 (c2St 6 10 (k) (c) (r) (Value.VInt (k)) (Value.VInt (hi)) Value.VUndef)
        = (step (c2Bytecode lo hi) (c2St 6 10 (k) (c) (r) (Value.VInt (k)) (Value.VInt (hi)) Value.VUndef)).bind (run (c2Bytecode lo hi) 2) from rfl]
  rw [h3, Option.some_bind]
  rw [show run (c2Bytecode lo hi) 2 (c2St 7 9 (k) (c) (r) (Value.VBool true) Value.VUndef Value.VUndef)
        = (step (c2Bytecode lo hi) (c2St 7 9 (k) (c) (r) (Value.VBool true) Value.VUndef Value.VUndef)).bind (run (c2Bytecode lo hi) 1) from rfl]
  rw [h4, Option.some_bind]
  rw [show run (c2Bytecode lo hi) 1 (c2St 21 8 (k) (c) (r) Value.VUndef Value.VUndef Value.VUndef)
        = (step (c2Bytecode lo hi) (c2St 21 8 (k) (c) (r) Value.VUndef Value.VUndef Value.VUndef)).bind (run (c2Bytecode lo hi) 0) from rfl]
  rw [h5, Option.some_bind]
  rfl

/-- Running m + n steps is running m steps and then n steps. -/
theorem run_add (bc : Bytecode) (m n : Nat) (s : MachineState) :
    run bc (m + n) s = (run bc m s).bind (run bc n) := by
  induction m generalizing s with
  | zero =>
      rw [Nat.zero_add]
      rfl
  | succ m ih =>
      have hc : m + 1 + n = (m + n) + 1 := by omega
      rw [hc]
      show (step bc s).bind (run bc (m + n)) = ((step bc s).bind (run bc m)).bind (run bc n)
      cases step bc s with
      | none => rfl
      | some s2 => exact ih s2

/-- The whole loop from the top: with N iterations left, 17 N + 5 steps
    stop the machine with the counter bumped N times; when N is positive
    the loop variable ends at hi + 1 and the recorded value at hi. -/
theorem c2_loop_run (lo hi : Int) (N : Nat) :
    ∀ k c r : Int, (hi - k + 1).toNat = N →
      run (c2Bytecode lo hi) (17 * N + 5) (c2Loop k c r)
        = some (c2Final (if N = 0 then k else hi + 1) (c + N) (if N = 0 then r else hi)) := by
  induction N with
  | zero =>
      intro k c r hN
      have hk : hi < k := by omega
      have h5 : 17 * 0 + 5 = 5 := by norm_num
      rewrite [h5, c2_exit lo hi k c r hk]
      norm_num
  | succ N ih =>
      intro k c r hN
      have hk : k ≤ hi := by omega
      have hsplit : 17 * (N + 1) + 5 = 17 + (17 * N + 5) := by ring
      rewrite [hsplit, run_add, c2_iter lo hi k c r hk, Option.some_bind]
      rewrite [ih (k + 1) (c + 1) k (by omega)]
      have h1 : (if N = 0 then k + 1 else hi + 1) = hi + 1 := by
        split_ifs with h
        · omega
        · rfl
      have h2 : c + 1 + (N : Int) = c + ((N + 1 : Nat) : Int) := by
        push_cast
        ring
      have h3 : (if N = 0 then (k : Int) else hi) = hi := by
        split_ifs with h
        · omega
        · rfl
      rewrite [h1, h2, h3]
      have h4 : ¬ (N + 1 = 0) := by omega
      rewrite [if_neg h4, if_neg h4]
      rfl

/-- C2 (amended): the compiled code for (for i := lo to hi do body)
    executes the body exactly max(0, hi - lo + 1) times, the loop
    variable equals hi during the last execution of the body, and after
    the loop falls through i equals hi + 1 when at least one iteration
    ran (hi >= lo); when hi < lo the body never runs and i keeps the
    initial value lo.  The body here bumps a counter (address 6) and
    records i (address 7); i lives at address 5. -/
theorem c2_for_loop (lo hi : Int) :
    ∃ n sf, run (c2Bytecode lo hi) n (initialState (c2Bytecode lo hi)) = some sf ∧
      sf.running = false ∧
      sf.dstore 6 = Value.VInt (max 0 (hi - lo + 1)) ∧
      (lo ≤ hi → sf.dstore 7 = Value.VInt hi) ∧
      sf.dstore 5 = Value.VInt (if lo ≤ hi then hi + 1 else lo) := by
  have hrun : run (c2Bytecode lo hi) (4 + (17 * (hi - lo + 1).toNat + 5))
      (initialState (c2Bytecode lo hi))
      = some (c2Final (if (hi - lo + 1).toNat = 0 then lo else hi + 1)
          (0 + ((hi - lo + 1).toNat : Int))
          (if (hi - lo + 1).toNat = 0 then 0 else hi)) := by
    rewrite [run_add, c2_entry lo hi, Option.some_bind]
    exact c2_loop_run lo hi (hi - lo + 1).toNat lo 0 0 rfl
  refine ⟨_, _, hrun, rfl, ?_, ?_, ?_⟩
  · show Value.VInt (0 + ((hi - lo + 1).toNat : Int)) = _
    refine congrArg Value.VInt ?_
    rcases le_or_lt 0 (hi - lo + 1) with h | h
    · rw [max_eq_right h]
      omega
    · rw [max_eq_left (le_of_lt h)]
      omega
  · intro hle
    show Value.VInt (if (hi - lo + 1).toNat = 0 then (0 : Int) else hi) = _
    rw [if_neg (by omega)]
  · show Value.VInt (if (hi - lo + 1).toNat = 0 then lo else hi + 1) = _
    refine congrArg Value.VInt ?_
    split_ifs <;> omega

/-- C2 counterexample: with lo = 2 and hi = 0 the loop body never runs
    and the loop variable keeps the value 2 after the loop, not the
    claimed hi + 1 = 1. -/
theorem c2_counterexample :
    Option.map (fun s => s.dstore 5) (run (c2Bytecode 2 0) 9 (initialState (c2Bytecode 2 0)))
      = some (Value.VInt 2) ∧ Value.VInt 2 ≠ Value.VInt (0 + 1) := by
  constructor
  · decide
  · decide

/-! ## C8: the lexer at unterminated comments and strings. -/

/-- Reading the input at the split point of a prefix. -/
theorem get_at_split (pre : List Char) (c : Char) (rest : List Char) :
    (pre ++ c :: rest).get? pre.length = some c := by
  induction pre with
  | nil => rfl
  | cons a as ih => exact ih

/-- Stream.next at a split position consumes the head of the suffix. -/
theorem nextCh_split (pre : List Char) (c : Char) (rest : List Char) (ln : Nat) :
    Stream.nextCh { input := pre ++ c :: rest, position := pre.length, lineNumber := ln }
      = (some c, { input := pre ++ c :: rest, position := pre.length + 1,
                   lineNumber := if c = Char.ofNat 10 then ln + 1 else ln }) := by
  unfold Stream.nextCh
  dsimp only
  rw [get_at_split]

/-- Stream.next at or past the end of the input reports end of file. -/
theorem nextCh_none (inp : List Char) (pos ln : Nat) (h : inp.length ≤ pos) :
    Stream.nextCh { input := inp, position := pos, lineNumber := ln }
      = (none, { input := inp, position := pos, lineNumber := ln }) := by
  unfold Stream.nextCh
  dsimp only
  rw [List.get?_eq_none.mpr h]

/-- The { comment loop on a suffix with no closing brace consumes it all
    and returns the accumulated text, with no error possible. -/
theorem braceCommentLoop_data (rest : List Char) :
    ∀ (f : Nat) (pre : List Char) (ln : Nat) (ch : Option Char) (acc : String),
      rest.length < f → (∀ c ∈ rest, ¬ c = rbraceCh) →
      ((braceCommentLoop f { input := pre ++ rest, position := pre.length,
                             lineNumber := ln } ch acc).1).data
        = acc.data ++ (charStr ch).data ++ rest := by
  induction rest with
  | nil =>
      intro f pre ln ch acc hf hno
      cases f with
      | zero => exact absurd hf (by omega)
      | succ f2 =>
          unfold braceCommentLoop
          rw [nextCh_none (pre ++ []) pre.length ln (by simp)]
          simp [String.data_append]
  | cons c2 rest2 ih =>
      intro f pre ln ch acc hf hno
      cases f with
      | zero => exact absurd hf (by omega)
      | succ f2 =>
          unfold braceCommentLoop
          rw [nextCh_split pre c2 rest2 ln]
          dsimp only
          rw [if_neg (hno c2 (by simp))]
          rw [show pre ++ c2 :: rest2 = (pre ++ [c2]) ++ rest2 from by simp,
              show pre.length + 1 = (pre ++ [c2]).length from by simp]
          rw [ih f2 (pre ++ [c2]) _ (some c2) (acc ++ charStr ch)
                (by simp only [List.length_cons] at hf; omega)
                (fun x hx => hno x (List.mem_cons_of_mem c2 hx))]
          simp [String.data_append, charStr]

/-- The string literal loop on a suffix with no quote consumes it all
    and returns the accumulated text, with no error possible. -/
theorem stringLoop_data (rest : List Char) :
    ∀ (f : Nat) (pre : List Char) (ln : Nat) (ch : Option Char) (acc : String),
      rest.length < f → (∀ c ∈ rest, ¬ c = quoteCh) →
      ((stringLoop f { input := pre ++ rest, position := pre.length,
                       lineNumber := ln } ch acc).1).data
        = acc.data ++ (charStr ch).data ++ rest := by
  induction rest with
  | nil =>
      intro f pre ln ch acc hf hno
      cases f with
      | zero => exact absurd hf (by omega)
      | succ f2 =>
          unfold stringLoop
          rw [nextCh_none (pre ++ []) pre.length ln (by simp)]
          simp [String.data_append]
  | cons c2 rest2 ih =>
      intro f pre ln ch acc hf hno
      cases f with
      | zero => exact absurd hf (by omega)
      | succ f2 =>
          unfold stringLoop
          rw [nextCh_split pre c2 rest2 ln]
          dsimp only
          rw [if_neg (hno c2 (by simp))]
          rw [show pre ++ c2 :: rest2 = (pre ++ [c2]) ++ rest2 from by simp,
              show pre.length + 1 = (pre ++ [c2]).length from by simp]
          rw [ih f2 (pre ++ [c2]) _ (some c2) (acc ++ charStr ch)
                (by simp only [List.length_cons] at hf; omega)
                (fun x hx => hno x (List.mem_cons_of_mem c2 hx))]
          simp [String.data_append, charStr]

/-- The (* comment loop on a suffix with no star consumes it all and
    returns the accumulated text, with no error possible. -/
theorem starCommentLoop_data (rest : List Char) :
    ∀ (f : Nat) (pre : List Char) (ln : Nat) (acc : String),
      rest.length < f → (∀ c ∈ rest, ¬ c = Char.ofNat 42) →
      ((starCommentLoop f { input := pre ++ rest, position := pre.length,
                            lineNumber := ln } acc).1).data
        = acc.data ++ rest := by
  induction rest with
  | nil =>
      intro f pre ln acc hf hno
      cases f with
      | zero => exact absurd hf (by omega)
      | succ f2 =>
          unfold starCommentLoop
          rw [nextCh_none (pre ++ []) pre.length ln (by simp)]
          simp
  | cons c2 rest2 ih =>
      intro f pre ln acc hf hno
      cases f with
      | zero => exact absurd hf (by omega)
      | succ f2 =>
          unfold starCommentLoop
          rw [nextCh_split pre c2 rest2 ln]
          dsimp only
          rw [decide_eq_false (hno c2 (by simp)), Bool.false_and,
              if_neg (by decide : ¬ false = true)]
          rw [show pre ++ c2 :: rest2 = (pre ++ [c2]) ++ rest2 from by simp,
              show pre.length + 1 = (pre ++ [c2]).length from by simp]
          rw [ih f2 (pre ++ [c2]) _ (acc ++ String.mk [c2])
                (by simp only [List.length_cons] at hf; omega)
                (fun x hx => hno x (List.mem_cons_of_mem c2 hx))]
          simp [String.data_append]

/-- C8 counterexample: the two-character input of an opening brace and
    the letter a ends inside an unterminated comment, yet lexing it does
    not raise any lex error. -/
theorem c8_counterexample :
    ¬ (∀ cs : List Char, (∀ c ∈ cs, ¬ c = rbraceCh) →
         ∃ e, fetchNextToken (mkStream (lbraceCh :: cs)) = Except.error e) := by
  intro h
  obtain ⟨e, he⟩ := h [Char.ofNat 97] (by decide)
  have hok : lexOk (fetchNextToken (mkStream (lbraceCh :: [Char.ofNat 97]))) = true := by
    decide
  rw [he] at hok
  exact Bool.noConfusion hok

/-- C8 (amended): an input that ends inside an unterminated { comment,
    string literal or (* comment raises no lex error: the loop stops at
    end of file and the consumed text is returned as a COMMENT or STRING
    token (via the JS quirk, a comment or string cut off right after its
    opener gets the value "-1", the stringified EOF marker). -/
theorem c8_unterminated_no_error :
    (∀ cs : List Char, (∀ c ∈ cs, ¬ c = rbraceCh) →
       ∃ r, fetchNextToken (mkStream (lbraceCh :: cs)) = Except.ok r ∧
         r.1.tokenType = TokenType.COMMENT ∧
         r.1.value = (if cs = [] then "-1" else String.mk cs)) ∧
    (∀ cs : List Char, (∀ c ∈ cs, ¬ c = quoteCh) →
       ∃ r, fetchNextToken (mkStream (quoteCh :: cs)) = Except.ok r ∧
         r.1.tokenType = TokenType.STRING ∧
         r.1.value = (if cs = [] then "-1" else String.mk cs)) ∧
    (∀ cs : List Char, (∀ c ∈ cs, ¬ c = Char.ofNat 42) →
       ∃ r, fetchNextToken (mkStream (Char.ofNat 40 :: Char.ofNat 42 :: cs))
           = Except.ok r ∧
         r.1.tokenType = TokenType.COMMENT ∧
         r.1.value = String.mk cs) := by
  refine ⟨?_, ?_, ?_⟩
  · intro cs hcs
    cases cs with
    | nil => exact ⟨_, rfl, rfl, by decide⟩
    | cons c cs2 =>
        refine ⟨_, rfl, rfl, ?_⟩
        rw [if_neg (by simp : ¬ (c :: cs2 : List Char) = [])]
        exact congrArg String.mk
          (braceCommentLoop_data cs2 _ [lbraceCh, c] _ (some c) ""
            (by simp only [mkStream, List.length_cons]; omega)
            (fun x hx => hcs x (List.mem_cons_of_mem c hx)))
  · intro cs hcs
    cases cs with
    | nil => exact ⟨_, rfl, rfl, by decide⟩
    | cons c cs2 =>
        refine ⟨_, rfl, rfl, ?_⟩
        rw [if_neg (by simp : ¬ (c :: cs2 : List Char) = [])]
        exact congrArg String.mk
          (stringLoop_data cs2 _ [quoteCh, c] _ (some c) ""
            (by simp only [mkStream, List.length_cons]; omega)
            (fun x hx => hcs x (List.mem_cons_of_mem c hx)))
  · intro cs hcs
    cases cs with
    | nil => exact ⟨_, rfl, rfl, by decide⟩
    | cons c cs2 =>
        refine ⟨_, rfl, rfl, ?_⟩
        exact congrArg String.mk
          (starCommentLoop_data (c :: cs2) _ [Char.ofNat 40, Char.ofNat 42] _ ""
            (by simp only [mkStream, List.length_cons]; omega) hcs)

/-- Witness for C8 (amended): the brace case at the concrete input {a. -/
theorem c8_unterminated_no_error_witness :
    (∀ c ∈ [Char.ofNat 97], ¬ c = rbraceCh) ∧
    (∃ r, fetchNextToken (mkStream (lbraceCh :: [Char.ofNat 97])) = Except.ok r ∧
       r.1.tokenType = TokenType.COMMENT ∧
       r.1.value = (if ([Char.ofNat 97] : List Char) = [] then "-1"
                    else String.mk [Char.ofNat 97])) :=
  ⟨by decide, c8_unterminated_no_error.1 [Char.ofNat 97] (by decide)⟩

end Turbo
